import Mathlib

/-!
# Omni-Agent: shallow embedding and verification of the core protocols

This file embeds the core logic of the Omni-Agent backend in Lean 4 and
proves (or refutes) the frozen specification claims about it.

Modelling conventions, shared by all sections:

* Python `float` money amounts are modelled as `ℚ`.  All amounts appearing
  in the claims (budgets, unit prices, the 1% escrow fee) are small decimal
  fractions for which float arithmetic is not at issue.
* Python dictionaries are modelled as association lists with first-match
  lookup (a Python `dict` never holds a duplicate key).
* A Python function that `raise`s is modelled as returning `Except String α`;
  the Python exception aborts before any mutation performed after the check,
  so an `.error` result leaves every modelled state component unchanged.
* `datetime.now()` timestamps are modelled as a rational-number clock passed
  explicitly (`now`), with seconds as the unit.
* SHA-256 digests are modelled by their pre-image strings: equal pre-images
  give equal digests, and the model treats the digest as injective in the
  pre-image (collision-freeness is abstracted away).
-/

namespace OmniAgent

/-! ## Python value model

`PyVal` models the JSON-ish values stored in tool-output dictionaries.
`PyVal.truthy` models Python truthiness (`if output.get(k):`).
-/

inductive PyVal where
  | vstr : String → PyVal
  | vnum : ℚ → PyVal
  | vbool : Bool → PyVal
  | vnone : PyVal
deriving DecidableEq

def PyVal.truthy : PyVal → Bool
  | .vstr s => decide (s ≠ "")
  | .vnum q => decide (q ≠ 0)
  | .vbool b => b
  | .vnone => false

/-- A Python `dict` of tool output, as an association list. -/
def PyDict := List (String × PyVal)

instance : DecidableEq PyDict := by
  unfold PyDict
  infer_instance

/-- `d.get k` in Python: first binding of `k`, if any. -/
def pyGet (d : PyDict) (k : String) : Option PyVal :=
  (d.find? (fun p => p.1 = k)).map (·.2)

/-- Truthiness of `d.get(k)` (a missing key gives `None`, which is falsy). -/
def pyGetTruthy (d : PyDict) (k : String) : Bool :=
  match pyGet d k with
  | some v => v.truthy
  | none => false

/-- `d.get(k) is not None` in Python. -/
def pyGetIsNotNone (d : PyDict) (k : String) : Bool :=
  match pyGet d k with
  | some v => decide (v ≠ PyVal.vnone)
  | none => false

/-! ## Escrow Manager (src/backend/agents/nodes/escrow.py)

`EscrowRecord` mirrors `backend/agents/state.py`.  The ISO-format timestamp
strings (`created_at`, `submitted_at`, ...) are irrelevant to every claim and
are omitted.  The `work_ipfs_cid` evidence field stores
`sha256(json.dumps(work_data, sort_keys=True))[:16]` in the source; the
digest is modelled by the hashed content itself (field `work_evidence`),
since no claim depends on the digest text.

Fund movements go through `a2a_client.execute_a2a_payment(from, to, amount)`;
the model records each attempted transfer as a `Transfer` value.
-/

structure EscrowRecord where
  escrow_id : String
  task_id : String
  customer_agent : String
  merchant_agent : String
  amount : ℚ
  fee : ℚ
  status : String
  requirement_hash : Option String := none
  work_evidence : Option PyDict := none
  verification_score : ℚ := 0
  verification_passed : Bool := false
  lock_tx_present : Bool := false
  release_tx_present : Bool := false
  dispute_reason : Option String := none
  dispute_resolution : Option String := none
deriving DecidableEq

/-- One `execute_a2a_payment(from_agent, to_agent, amount)` instruction. -/
structure Transfer where
  from_agent : String
  to_agent : String
  amount : ℚ
deriving DecidableEq

/-- The escrow table `EscrowManager.escrows`, keyed by escrow id. -/
def EscrowStore := List (String × EscrowRecord)

instance : DecidableEq EscrowStore := by
  unfold EscrowStore
  infer_instance

def lookupEscrow : EscrowStore → String → Option EscrowRecord
  | [], _ => none
  | p :: rest, id => if p.1 = id then some p.2 else lookupEscrow rest id

def setEscrow (st : EscrowStore) (id : String) (e : EscrowRecord) : EscrowStore :=
  st.map (fun p => if p.1 = id then (p.1, e) else p)

/-- `EscrowManager.create_escrow` with the fund lock succeeding: computes the
1% platform fee, issues the customer → escrow-contract lock transfer and
records the escrow with status `created`. -/
def create_escrow (task_id customer_agent merchant_agent : String) (amount : ℚ)
    (requirement_hash : Option String) (escrow_id : String) :
    EscrowRecord × Transfer :=
  let fee := amount * (1 / 100)
  ({ escrow_id := escrow_id
     task_id := task_id
     customer_agent := customer_agent
     merchant_agent := merchant_agent
     amount := amount
     fee := fee
     status := "created"
     requirement_hash := requirement_hash
     lock_tx_present := true },
   { from_agent := customer_agent, to_agent := "escrow-contract", amount := amount })

/-- `EscrowManager.submit_work` on a record: legal only from `created`;
records the work evidence and advances to `submitted`. -/
def submit_work_rec (e : EscrowRecord) (work_data : Option PyDict) :
    Except String EscrowRecord :=
  if e.status ≠ "created" then
    .error ("Invalid status for submission: " ++ e.status)
  else
    .ok { e with status := "submitted", work_evidence := work_data }

/-- `EscrowManager.verify_and_release` on a record: legal only from
`submitted`/`verifying`; on `passed` releases `amount - fee` to the merchant,
otherwise refunds the full `amount` to the customer.  The status check
happens before any field is written, so an `.error` means the record and the
ledger are untouched and no transfer is issued. -/
def verify_and_release_rec (e : EscrowRecord) (verification_score : ℚ)
    (passed : Bool) : Except String (EscrowRecord × Transfer) :=
  if e.status ≠ "submitted" ∧ e.status ≠ "verifying" then
    .error ("Invalid status for verification: " ++ e.status)
  else
    let e1 := { e with
      status := "verifying"
      verification_score := verification_score
      verification_passed := passed }
    if passed then
      .ok ({ e1 with status := "released", release_tx_present := true },
           { from_agent := "escrow-contract", to_agent := e.merchant_agent,
             amount := e.amount - e.fee })
    else
      .ok ({ e1 with status := "refunded", release_tx_present := true },
           { from_agent := "escrow-contract", to_agent := e.customer_agent,
             amount := e.amount })

/-- Store-level `verify_and_release(escrow_id, score, passed)`. -/
def verify_and_release (st : EscrowStore) (escrow_id : String)
    (verification_score : ℚ) (passed : Bool) :
    Except String (EscrowStore × Transfer) :=
  match lookupEscrow st escrow_id with
  | none => .error ("Escrow " ++ escrow_id ++ " not found")
  | some e =>
    match verify_and_release_rec e verification_score passed with
    | .error msg => .error msg
    | .ok (e', t) => .ok (setEscrow st escrow_id e', t)

/-- `EscrowManager.raise_dispute`: the source checks only that the escrow
exists — there is no status guard — and then sets status `disputed`. -/
def raise_dispute (st : EscrowStore) (escrow_id : String) (reason : String) :
    Except String EscrowStore :=
  match lookupEscrow st escrow_id with
  | none => .error ("Escrow " ++ escrow_id ++ " not found")
  | some e =>
    .ok (setEscrow st escrow_id
      { e with status := "disputed", dispute_reason := some reason })

/-- `EscrowManager.resolve_dispute`: legal only from `disputed`; settles to
`released` or `refunded` per the arbitration verdict. -/
def resolve_dispute (st : EscrowStore) (escrow_id : String) (resolution : String)
    (release_to_merchant : Bool) : Except String EscrowStore :=
  match lookupEscrow st escrow_id with
  | none => .error "Invalid escrow or status for resolution"
  | some e =>
    if e.status ≠ "disputed" then .error "Invalid escrow or status for resolution"
    else
      let e1 := { e with dispute_resolution := some resolution }
      if release_to_merchant then
        .ok (setEscrow st escrow_id { e1 with status := "released" })
      else
        .ok (setEscrow st escrow_id { e1 with status := "refunded" })

/-! ## Settlement pass (`escrow_release_node`)

After verification, the node walks `state.escrow_records`; escrows already
`released`/`refunded` are skipped; each remaining escrow is matched to the
*first* `StepRecord` whose `agent_id` equals the escrow's `merchant_agent`;
the step status is mapped to a `(score, passed)` pair; if the step output is
truthy the work is submitted as evidence; then `verify_and_release` settles.
Exceptions raised by `submit_work`/`verify_and_release` propagate out of the
node (there is no `try` around them), modelled as the `.error` branch.
-/

structure StepRec where
  step_id : String
  agent_id : String
  status : String
  output : Option PyDict
deriving DecidableEq

/-- The `(verification_score, passed)` pair `escrow_release_node` derives
from the matched step's status. -/
def stepOutcome (status : String) : ℚ × Bool :=
  if status = "success" then (1, true)
  else if status = "failed" then (0, false)
  else (1 / 2, false)

/-- `if matching_step.output:` — truthy only for a non-`None`, non-empty dict. -/
def stepOutputTruthy (s : StepRec) : Bool :=
  match s.output with
  | some d => decide (d ≠ [])
  | none => false

/-- One iteration of the settlement loop: skip settled escrows, match the
first step record with the escrow's merchant agent id, derive the
verification outcome from the step status, submit the work evidence when
the step output is truthy, then verify and release/refund.  An uncaught
`ValueError` from `submit_work`/`verify_and_release` is the `.error` case. -/
def settle_one (steps : List StepRec) (e : EscrowRecord) :
    Except String (EscrowRecord × Option Transfer) :=
  if e.status = "released" ∨ e.status = "refunded" then .ok (e, none)
  else
    match steps.find? (fun s => s.agent_id = e.merchant_agent) with
    | none => .ok (e, none)
    | some matching_step =>
      match (if stepOutputTruthy matching_step then
               submit_work_rec e matching_step.output
             else .ok e) with
      | .error msg => .error msg
      | .ok e1 =>
        match verify_and_release_rec e1 (stepOutcome matching_step.status).1
            (stepOutcome matching_step.status).2 with
        | .error msg => .error msg
        | .ok (e2, t) => .ok (e2, some t)

/-- The settlement loop of `escrow_release_node` over the task's escrow
records (the state list and the manager table alias the same records in the
source).  Returns the updated records and the transfers issued, or the
message of the first uncaught `ValueError`, which aborts the node. -/
def escrow_release_node (steps : List StepRec) :
    List EscrowRecord → Except String (List EscrowRecord × List Transfer)
  | [] => .ok ([], [])
  | e :: rest =>
    match settle_one steps e with
    | .error msg => .error msg
    | .ok (e2, t) =>
      match escrow_release_node steps rest with
      | .error msg => .error msg
      | .ok (l, ts) => .ok (e2 :: l, t.elim ts (· :: ts))

/-! ## Helper lemmas on the escrow store -/

theorem lookup_setEscrow {st : EscrowStore} {id : String} {e : EscrowRecord}
    (x : EscrowRecord) (h : lookupEscrow st id = some e) :
    lookupEscrow (setEscrow st id x) id = some x := by
  induction st with
  | nil => simp [lookupEscrow] at h
  | cons p rest ih =>
    by_cases hp : p.1 = id
    · simp [lookupEscrow, setEscrow, hp]
    · have h' : lookupEscrow rest id = some e := by
        simpa [lookupEscrow, hp] using h
      simpa [lookupEscrow, setEscrow, hp] using ih h'

/-- Unfolding equation for `verify_and_release` at a present escrow id. -/
theorem verify_and_release_eq {st : EscrowStore} {id : String}
    {e : EscrowRecord} (score : ℚ) (passed : Bool)
    (h : lookupEscrow st id = some e) :
    verify_and_release st id score passed =
      match verify_and_release_rec e score passed with
      | .error msg => .error msg
      | .ok (e', t) => .ok (setEscrow st id e', t) := by
  unfold verify_and_release
  rw [h]

/-- Equation for `verify_and_release_rec` on a non-settable status. -/
theorem verify_and_release_rec_bad {e : EscrowRecord}
    (hne : e.status ≠ "submitted" ∧ e.status ≠ "verifying")
    (score : ℚ) (passed : Bool) :
    verify_and_release_rec e score passed =
      .error ("Invalid status for verification: " ++ e.status) := by
  unfold verify_and_release_rec
  rw [if_pos hne]

/-! ## Claim C3 -/

/-- C3: calling `verify_and_release` on an escrow that is already terminal
(`released` or `refunded`) fails with the `Invalid status for verification`
rejection.  The status guard runs before any field is written and before any
transfer is attempted, so the `.error` result carries no updated store and no
transfer: the escrow's status, verification fields and transfer references
are untouched and no funds move. -/
theorem verifyAndRelease_terminal_rejected (st : EscrowStore) (id : String)
    (e : EscrowRecord) (score : ℚ) (passed : Bool)
    (hlook : lookupEscrow st id = some e)
    (hterm : e.status = "released" ∨ e.status = "refunded") :
    verify_and_release st id score passed =
      .error ("Invalid status for verification: " ++ e.status) := by
  have hne : e.status ≠ "submitted" ∧ e.status ≠ "verifying" := by
    rcases hterm with h | h <;> rw [h] <;> exact ⟨by decide, by decide⟩
  rw [verify_and_release_eq score passed hlook, verify_and_release_rec_bad hne]

/-- Concrete single-escrow table with an already-released escrow (C3). -/
def c3Store : EscrowStore :=
  [("E1", { escrow_id := "E1", task_id := "T", customer_agent := "cust",
            merchant_agent := "merch", amount := 10, fee := 0,
            status := "released" })]

/-- Witness for C3: a concrete already-released escrow is rejected. -/
theorem verifyAndRelease_terminal_rejected_witness :
    verify_and_release c3Store "E1" 1 true =
      .error ("Invalid status for verification: " ++ "released") :=
  verifyAndRelease_terminal_rejected c3Store "E1"
    { escrow_id := "E1", task_id := "T", customer_agent := "cust",
      merchant_agent := "merch", amount := 10, fee := 0,
      status := "released" } 1 true rfl (Or.inl rfl)

/-! ## Claim C4 -/

/-- C4: `create_escrow` records `fee = amount * 1%` and locks the full
amount from the customer into the escrow contract; a `verify_and_release`
with `passed = true` from `submitted` or `verifying` transfers exactly
`amount - fee` to the merchant and sets status `released`; with
`passed = false` it transfers the full `amount` back to the customer and
sets status `refunded`. -/
theorem escrow_fee_release_refund (task c m id : String) (a : ℚ)
    (rh : Option String) (e : EscrowRecord) (score : ℚ)
    (hst : e.status = "submitted" ∨ e.status = "verifying") :
    (create_escrow task c m a rh id).1.fee = a * (1 / 100)
    ∧ (create_escrow task c m a rh id).1.status = "created"
    ∧ (create_escrow task c m a rh id).2 =
        { from_agent := c, to_agent := "escrow-contract", amount := a }
    ∧ verify_and_release_rec e score true =
        .ok ({ e with status := "released", verification_score := score,
                      verification_passed := true, release_tx_present := true },
             { from_agent := "escrow-contract", to_agent := e.merchant_agent,
               amount := e.amount - e.fee })
    ∧ verify_and_release_rec e score false =
        .ok ({ e with status := "refunded", verification_score := score,
                      verification_passed := false, release_tx_present := true },
             { from_agent := "escrow-contract", to_agent := e.customer_agent,
               amount := e.amount }) := by
  have hok : ¬(e.status ≠ "submitted" ∧ e.status ≠ "verifying") := by
    rcases hst with h | h <;> rw [h]
    · exact fun hc => hc.1 rfl
    · exact fun hc => hc.2 rfl
  refine ⟨rfl, rfl, rfl, ?_, ?_⟩ <;>
    · unfold verify_and_release_rec
      rw [if_neg hok]
      rfl

/-- Witness for C4, the spec's round-trip numbers: amount 10 gives fee 0.1;
release pays the merchant 9.9; refund returns the full 10 to the customer. -/
theorem escrow_fee_release_refund_witness :
    (create_escrow "T" "cust" "merch" 10 none "E1").1.fee = 1 / 10
    ∧ (verify_and_release_rec
        { escrow_id := "E1", task_id := "T", customer_agent := "cust",
          merchant_agent := "merch", amount := 10, fee := 1 / 10,
          status := "submitted" } 1 true).map (fun r => r.2.amount) =
        .ok (99 / 10)
    ∧ (verify_and_release_rec
        { escrow_id := "E1", task_id := "T", customer_agent := "cust",
          merchant_agent := "merch", amount := 10, fee := 1 / 10,
          status := "submitted" } 0 false).map (fun r => r.2.amount) =
        .ok 10 := by
  obtain ⟨h1, _, _, h4, h5⟩ :=
    escrow_fee_release_refund "T" "cust" "merch" "E1" 10 none
      { escrow_id := "E1", task_id := "T", customer_agent := "cust",
        merchant_agent := "merch", amount := 10, fee := 1 / 10,
        status := "submitted" } 1 (Or.inl rfl)
  obtain ⟨_, _, _, _, h5'⟩ :=
    escrow_fee_release_refund "T" "cust" "merch" "E1" 10 none
      { escrow_id := "E1", task_id := "T", customer_agent := "cust",
        merchant_agent := "merch", amount := 10, fee := 1 / 10,
        status := "submitted" } 0 (Or.inl rfl)
  refine ⟨by rw [h1]; norm_num, by rw [h4]; simp [Except.map]; norm_num,
    by rw [h5']; simp [Except.map]⟩

/-! ## Claim C5 -/

/-- A concrete escrow table holding one already-released escrow. -/
def releasedStore : EscrowStore :=
  [("E1", { escrow_id := "E1", task_id := "T", customer_agent := "cust",
            merchant_agent := "merch", amount := 10, fee := 0,
            status := "released" })]

/-- Counterexample to C5: `raise_dispute` has no status check, so a
`raise_dispute` / `resolve_dispute` sequence mutates an escrow that is
already `released`, ending with status `refunded` — the record is not
immutable after reaching a terminal state, contrary to the claim. -/
theorem terminal_escrow_mutated_via_dispute :
    (lookupEscrow releasedStore "E1").map (·.status) = some "released"
    ∧ ((raise_dispute releasedStore "E1" "quality dispute").toOption.bind
        (fun st1 => (resolve_dispute st1 "E1" "arbitration: refund" false).toOption)).bind
        (fun st2 => (lookupEscrow st2 "E1").map (·.status)) = some "refunded" := by
  constructor
  · rfl
  · rfl

/-- C5 as amended: `verify_and_release` alone cannot mutate a terminal
escrow (a second settlement attempt errors), but `raise_dispute` checks only
existence, never status: from any status — terminal included — it succeeds
and sets `disputed`, after which `resolve_dispute` moves the escrow to
`released` or `refunded` again.  So terminal escrows are immutable only
under the verify path, not under the dispute path. -/
theorem raiseDispute_unguarded_terminal_mutable (st : EscrowStore)
    (id reason resolution : String) (e : EscrowRecord)
    (hlook : lookupEscrow st id = some e) :
    ((e.status = "released" ∨ e.status = "refunded") →
      ∀ s p r, verify_and_release_rec e s p ≠ .ok r)
    ∧ raise_dispute st id reason =
        .ok (setEscrow st id
          { e with status := "disputed", dispute_reason := some reason })
    ∧ ∀ rtm : Bool, ∃ st2,
        resolve_dispute
          (setEscrow st id
            { e with status := "disputed", dispute_reason := some reason })
          id resolution rtm = .ok st2
        ∧ (lookupEscrow st2 id).map (·.status) =
            some (if rtm then "released" else "refunded") := by
  refine ⟨?_, ?_, ?_⟩
  · intro hterm s p r
    have hne : e.status ≠ "submitted" ∧ e.status ≠ "verifying" := by
      rcases hterm with h | h <;> rw [h] <;> exact ⟨by decide, by decide⟩
    rw [verify_and_release_rec_bad hne]
    simp
  · unfold raise_dispute
    rw [hlook]
  · intro rtm
    have hlook2 := lookup_setEscrow
      { e with status := "disputed", dispute_reason := some reason } hlook
    have heq : resolve_dispute
        (setEscrow st id
          { e with status := "disputed", dispute_reason := some reason })
        id resolution rtm =
        (if rtm then
          .ok (setEscrow
            (setEscrow st id
              { e with status := "disputed", dispute_reason := some reason }) id
            { e with status := "released", dispute_reason := some reason,
                     dispute_resolution := some resolution })
        else
          .ok (setEscrow
            (setEscrow st id
              { e with status := "disputed", dispute_reason := some reason }) id
            { e with status := "refunded", dispute_reason := some reason,
                     dispute_resolution := some resolution })) := by
      unfold resolve_dispute
      rw [hlook2]
      cases rtm <;> rfl
    cases rtm
    · exact ⟨_, heq.trans (if_neg (by simp)), by
        rw [lookup_setEscrow _ hlook2]; simp⟩
    · exact ⟨_, heq.trans (if_pos rfl), by
        rw [lookup_setEscrow _ hlook2]; simp⟩

/-- Witness for the amended C5 at a concrete released escrow. -/
theorem raiseDispute_unguarded_terminal_mutable_witness :
    raise_dispute releasedStore "E1" "late delivery" =
      .ok (setEscrow releasedStore "E1"
        { escrow_id := "E1", task_id := "T", customer_agent := "cust",
          merchant_agent := "merch", amount := 10, fee := 0,
          status := "disputed", dispute_reason := some "late delivery" }) :=
  (raiseDispute_unguarded_terminal_mutable releasedStore "E1" "late delivery"
    "arb" _ rfl).2.1

/-! ## Claim C6 -/

/-- Equation for `verify_and_release_rec` on a `submitted` escrow. -/
theorem verify_and_release_rec_submitted (e : EscrowRecord)
    (hst : e.status = "submitted") (sc : ℚ) (pa : Bool) :
    verify_and_release_rec e sc pa =
      .ok ((if pa then
              { e with status := "released", verification_score := sc,
                       verification_passed := pa, release_tx_present := true }
            else
              { e with status := "refunded", verification_score := sc,
                       verification_passed := pa, release_tx_present := true }),
           (if pa then
              { from_agent := "escrow-contract", to_agent := e.merchant_agent,
                amount := e.amount - e.fee }
            else
              { from_agent := "escrow-contract", to_agent := e.customer_agent,
                amount := e.amount })) := by
  unfold verify_and_release_rec
  rw [if_neg (by rw [hst]; exact fun hc => hc.1 rfl)]
  cases pa <;> rfl

/-- The record/transfer pair the settlement loop body produces for one
escrow when it does not raise. -/
def settleExpected (steps : List StepRec) (e : EscrowRecord) :
    EscrowRecord × Option Transfer :=
  match settle_one steps e with
  | .ok r => r
  | .error _ => (e, none)

/-- `(stepOutcome st).2` holds exactly for a `success` step. -/
theorem stepOutcome_passed (st : String) :
    (stepOutcome st).2 = decide (st = "success") := by
  unfold stepOutcome
  by_cases hs : st = "success"
  · simp [hs]
  · by_cases hf : st = "failed" <;> simp [hs, hf]

/-- Explicit value of `settle_one` on a `created` escrow with a matched,
truthy-output step. -/
theorem settle_one_good (steps : List StepRec) (e : EscrowRecord)
    (s : StepRec) (hcr : e.status = "created")
    (hfind : steps.find? (fun s => s.agent_id = e.merchant_agent) = some s)
    (htru : stepOutputTruthy s = true) :
    settle_one steps e =
      .ok ((if (stepOutcome s.status).2 then
          { e with status := "released", work_evidence := s.output,
                   verification_score := (stepOutcome s.status).1,
                   verification_passed := (stepOutcome s.status).2,
                   release_tx_present := true }
        else
          { e with status := "refunded", work_evidence := s.output,
                   verification_score := (stepOutcome s.status).1,
                   verification_passed := (stepOutcome s.status).2,
                   release_tx_present := true }),
       some (if (stepOutcome s.status).2 then
          { from_agent := "escrow-contract", to_agent := e.merchant_agent,
            amount := e.amount - e.fee }
        else
          { from_agent := "escrow-contract", to_agent := e.customer_agent,
            amount := e.amount })) := by
  have hopen : ¬(e.status = "released" ∨ e.status = "refunded") := by
    rw [hcr]; decide
  have hsub : (if stepOutputTruthy s then submit_work_rec e s.output
      else .ok e) =
      .ok { e with status := "submitted", work_evidence := s.output } := by
    rw [htru]
    unfold submit_work_rec
    rw [if_pos rfl, if_neg (fun hc => hc hcr)]
  have hver := verify_and_release_rec_submitted
    { e with status := "submitted", work_evidence := s.output } rfl
    (stepOutcome s.status).1 (stepOutcome s.status).2
  unfold settle_one
  rw [if_neg hopen, hfind]
  simp only [hsub, hver]

/-- Explicit value of `settleExpected` on a `created` escrow with a matched,
truthy-output step. -/
theorem settleExpected_eq (steps : List StepRec) (e : EscrowRecord)
    (s : StepRec) (hcr : e.status = "created")
    (hfind : steps.find? (fun s => s.agent_id = e.merchant_agent) = some s)
    (htru : stepOutputTruthy s = true) :
    settleExpected steps e =
      ((if (stepOutcome s.status).2 then
          { e with status := "released", work_evidence := s.output,
                   verification_score := (stepOutcome s.status).1,
                   verification_passed := (stepOutcome s.status).2,
                   release_tx_present := true }
        else
          { e with status := "refunded", work_evidence := s.output,
                   verification_score := (stepOutcome s.status).1,
                   verification_passed := (stepOutcome s.status).2,
                   release_tx_present := true }),
       some (if (stepOutcome s.status).2 then
          { from_agent := "escrow-contract", to_agent := e.merchant_agent,
            amount := e.amount - e.fee }
        else
          { from_agent := "escrow-contract", to_agent := e.customer_agent,
            amount := e.amount })) := by
  unfold settleExpected
  rw [settle_one_good steps e s hcr hfind htru]

/-- `settle_one` succeeds on an already-settled escrow and on a `created`
escrow whose matched step has truthy output. -/
theorem settle_one_succeeds (steps : List StepRec) (e : EscrowRecord)
    (h : (e.status = "released" ∨ e.status = "refunded") ∨
      (e.status = "created" ∧
        ∃ s, steps.find? (fun s => s.agent_id = e.merchant_agent) = some s ∧
          stepOutputTruthy s = true)) :
    settle_one steps e = .ok (settleExpected steps e) := by
  rcases h with ht | ⟨hcr, s, hfind, htru⟩
  · have hone : settle_one steps e = .ok (e, none) := by
      unfold settle_one
      rw [if_pos ht]
    have hse : settleExpected steps e = (e, none) := by
      unfold settleExpected
      rw [hone]
    rw [hone, hse]
  · rw [settle_one_good steps e s hcr hfind htru,
      settleExpected_eq steps e s hcr hfind htru]

/-- The first part of the amended C6: when every still-open escrow is in
`created` and has a matched step with truthy output, the node settles all of
them without raising. -/
theorem escrow_release_node_ok (steps : List StepRec) (l : List EscrowRecord)
    (h : ∀ e ∈ l, ¬(e.status = "released" ∨ e.status = "refunded") →
      e.status = "created" ∧
      ∃ s, steps.find? (fun s => s.agent_id = e.merchant_agent) = some s ∧
        stepOutputTruthy s = true) :
    escrow_release_node steps l =
      .ok (l.map (fun e => (settleExpected steps e).1),
           l.filterMap (fun e => (settleExpected steps e).2)) := by
  induction l with
  | nil => rfl
  | cons e rest ih =>
    have hcond : (e.status = "released" ∨ e.status = "refunded") ∨
        (e.status = "created" ∧
          ∃ s, steps.find? (fun s => s.agent_id = e.merchant_agent) = some s ∧
            stepOutputTruthy s = true) := by
      by_cases ht : e.status = "released" ∨ e.status = "refunded"
      · exact Or.inl ht
      · exact Or.inr (h e (List.mem_cons_self e rest) ht)
    have h1 := settle_one_succeeds steps e hcond
    have h2 := ih (fun e' he' => h e' (List.mem_cons_of_mem _ he'))
    rcases hs : settleExpected steps e with ⟨e2, t⟩
    rw [hs] at h1
    unfold escrow_release_node
    rw [h1, h2]
    cases t <;> simp [hs, Option.elim]

/-- C6, amended: in the settlement pass each still-open escrow is matched to
the *first* step record with the escrow's merchant agent id; provided every
such escrow is in status `created` and its matched step carries non-empty
output, the pass raises nothing, each matched escrow ends terminal —
`released` exactly for a `success` step (merchant is paid `amount - fee`),
`refunded` otherwise (customer gets the full amount back) — with
`(score, passed)` equal to `(1, true)` for `success`, `(0, false)` for
`failed` and `(1/2, false)` otherwise.  (The unamended claim fails when the
matched step has empty output: `submit_work` is skipped and
`verify_and_release` raises on status `created`, aborting the pass.) -/
theorem escrowRelease_settles_matched_created (steps : List StepRec)
    (l : List EscrowRecord)
    (h : ∀ e ∈ l, ¬(e.status = "released" ∨ e.status = "refunded") →
      e.status = "created" ∧
      ∃ s, steps.find? (fun s => s.agent_id = e.merchant_agent) = some s ∧
        stepOutputTruthy s = true) :
    escrow_release_node steps l =
      .ok (l.map (fun e => (settleExpected steps e).1),
           l.filterMap (fun e => (settleExpected steps e).2))
    ∧ ∀ e ∈ l, ¬(e.status = "released" ∨ e.status = "refunded") →
      ∀ s, steps.find? (fun s => s.agent_id = e.merchant_agent) = some s →
        ((settleExpected steps e).1.status =
          if s.status = "success" then "released" else "refunded")
        ∧ (settleExpected steps e).1.verification_score = (stepOutcome s.status).1
        ∧ (settleExpected steps e).1.verification_passed = (stepOutcome s.status).2
        ∧ (settleExpected steps e).2 =
            some (if s.status = "success" then
              { from_agent := "escrow-contract", to_agent := e.merchant_agent,
                amount := e.amount - e.fee }
            else
              { from_agent := "escrow-contract", to_agent := e.customer_agent,
                amount := e.amount }) := by
  refine ⟨escrow_release_node_ok steps l h, ?_⟩
  intro e he hopen s hfind
  obtain ⟨hcr, s', hfind', htru'⟩ := h e he hopen
  have hss : s' = s := by
    rw [hfind'] at hfind
    exact Option.some.inj hfind
  subst hss
  have heq := settleExpected_eq steps e s' hcr hfind' htru'
  rw [heq]
  by_cases hsucc : s'.status = "success"
  · simp [stepOutcome_passed, hsucc]
  · simp [stepOutcome_passed, hsucc]

/-- Settlement inputs with a failed, output-less step (C6 counterexample). -/
def c6Steps : List StepRec :=
  [{ step_id := "s1", agent_id := "merch", status := "failed", output := none }]

def c6Escrows : List EscrowRecord :=
  [{ escrow_id := "E1", task_id := "T", customer_agent := "cust",
     merchant_agent := "merch", amount := 1, fee := 0, status := "created" }]

/-- Counterexample to C6 as stated: with a matched step whose status is
`failed` and whose output is `None` (the usual shape of a failed step), the
work is never submitted, so `verify_and_release` is called on a `created`
escrow and raises — the pass aborts and the matched open escrow does *not*
end in a terminal state, contrary to the claim. -/
theorem settlement_error_on_outputless_step :
    escrow_release_node c6Steps c6Escrows =
      .error ("Invalid status for verification: " ++ "created") := rfl

/-- Witness for the amended C6: a successful step with non-empty output
settles the matched `created` escrow to `released`. -/
theorem escrowRelease_settles_matched_created_witness :
    escrow_release_node
      [{ step_id := "s1", agent_id := "merch", status := "success",
         output := some [("image_url", PyVal.vstr "ipfs://x")] }]
      [{ escrow_id := "E1", task_id := "T", customer_agent := "cust",
         merchant_agent := "merch", amount := 1, fee := 0,
         status := "created" }] =
      .ok ([{ escrow_id := "E1", task_id := "T", customer_agent := "cust",
              merchant_agent := "merch", amount := 1, fee := 0,
              status := "released",
              work_evidence := some [("image_url", PyVal.vstr "ipfs://x")],
              verification_score := 1, verification_passed := true,
              release_tx_present := true }],
           [{ from_agent := "escrow-contract", to_agent := "merch",
              amount := 1 - 0 }]) := by
  have h := (escrowRelease_settles_matched_created
    [{ step_id := "s1", agent_id := "merch", status := "success",
       output := some [("image_url", PyVal.vstr "ipfs://x")] }]
    [{ escrow_id := "E1", task_id := "T", customer_agent := "cust",
       merchant_agent := "merch", amount := 1, fee := 0,
       status := "created" }]
    (by
      intro e he hopen
      rw [List.mem_singleton] at he
      subst he
      exact ⟨rfl, _, rfl, rfl⟩)).1
  rw [h]
  rfl

/-! ## Policy & Risk Engine (src/backend/policy/engine.py) and
Payment Client / Paid-Tool Wrapper (src/backend/payment/client.py,
src/backend/payment/wrapper.py)

`evaluate`'s `task_id`/`payload` parameters only populate an unused
`context` dictionary in `assess_risk` and are omitted.  The human-readable
`reason` strings keep their fixed prefixes but elide the `f`-string numeric
interpolation, which no claim depends on.  The Guardian `/quote` and `/pay`
HTTP round trips are modelled by the two booleans `quoteOk`/`payOk`
(an exception, a non-200 status and a rejected quote all land in the same
failure branch); the wrapped tool call is modelled by `toolOk`. -/

/-- First-match association-list lookup (a Python `dict.get`). -/
def assocGet {β : Type} : List (String × β) → String → Option β
  | [], _ => none
  | p :: rest, k => if p.1 = k then some p.2 else assocGet rest k

/-- Python's `int(x)` cast: truncation toward zero. -/
def pyInt (q : ℚ) : ℤ := if 0 ≤ q then ⌊q⌋ else ⌈q⌉

structure AgentConfig where
  id : String
  priority : String
  dailyBudget : ℚ
  maxPerCall : ℚ
  currentDailySpend : ℚ := 0
deriving DecidableEq

structure ServiceConfig where
  id : String
  unitPrice : ℚ
  active : Bool
  allowedAgents : Option (List String) := none
  blockedAgents : Option (List String) := none
deriving DecidableEq

/-- One entry of `RiskEngine.call_history`. -/
structure CallRec where
  agent_id : String
  service_id : String
  cost : ℚ
  timestamp : ℚ
  success : Bool
deriving DecidableEq

structure RiskEngine where
  call_history : List CallRec
  provider_failure_counts : List (String × Nat)
deriving DecidableEq

/-- `provider_failure_counts.get(service_id, 0)`. -/
def failureCount (re : RiskEngine) (service_id : String) : Nat :=
  (assocGet re.provider_failure_counts service_id).getD 0

/-- `defaultdict(int)` increment of a failure counter. -/
def bumpFailure : List (String × Nat) → String → List (String × Nat)
  | [], sid => [(sid, 1)]
  | (k, n) :: rest, sid =>
    if k = sid then (k, n + 1) :: rest else (k, n) :: bumpFailure rest sid

/-- `RiskEngine.assess_risk`, with `now` the current clock in seconds.
Returns `(risk_level, risk_reason)`.  The burst rule inspects only the
*previously recorded* calls: the call being assessed is not yet in
`call_history`. -/
def assess_risk (re : RiskEngine) (now : ℚ) (agent_id service_id : String)
    (estimated_cost : ℚ) (agent_priority : String) : String × String :=
  let recent_calls := re.call_history.filter
    (fun c => decide (c.agent_id = agent_id ∧ now - 60 < c.timestamp))
  if 5 < recent_calls.length ∧ 10 < (recent_calls.map (·.cost)).sum then
    ("RISK_BLOCK", "Burst detected")
  else if agent_priority = "LOW"
      ∧ (re.call_history.filter (fun c => decide (c.agent_id = agent_id))).length < 3
      ∧ 5 < estimated_cost then
    ("RISK_REVIEW", "First large call from low-priority agent")
  else if 3 < failureCount re service_id then
    ("RISK_REVIEW", "Provider has recent failures")
  else if 20 < estimated_cost then
    ("RISK_REVIEW", "Unusually large single call")
  else
    ("RISK_OK", "No risk detected")

/-- `RiskEngine.record_call`: append the call, prune entries older than one
hour, and count a failure against the provider when unsuccessful. -/
def record_call (re : RiskEngine) (now : ℚ) (agent_id service_id : String)
    (cost : ℚ) (success : Bool) : RiskEngine :=
  let newRec : CallRec :=
    { agent_id := agent_id, service_id := service_id, cost := cost,
      timestamp := now, success := success }
  let hist := (re.call_history ++ [newRec]).filter
    (fun c => decide (now - 3600 < c.timestamp))
  { call_history := hist
    provider_failure_counts :=
      if success then re.provider_failure_counts
      else bumpFailure re.provider_failure_counts service_id }

structure PolicyDecision where
  action : String
  approved_quantity : ℤ
  risk_level : String
  reason : String
deriving DecidableEq

structure PolicyEngine where
  agents : List (String × AgentConfig)
  services : List (String × ServiceConfig)
  risk_engine : RiskEngine
deriving DecidableEq

/-- Truthiness of `service.blockedAgents` combined with membership:
`if service.blockedAgents and agent_id in service.blockedAgents`. -/
def blockedBy (l : Option (List String)) (agent_id : String) : Bool :=
  match l with
  | some l => decide (l ≠ []) && decide (agent_id ∈ l)
  | none => false

/-- `if service.allowedAgents and agent_id not in service.allowedAgents`. -/
def notAllowedBy (l : Option (List String)) (agent_id : String) : Bool :=
  match l with
  | some l => decide (l ≠ []) && decide (agent_id ∉ l)
  | none => false

/-- The body of `PolicyEngine.evaluate` once agent and service are found:
service-active check, access control, risk assessment (RISK_BLOCK denies
unconditionally), the per-call ceiling with downgrade, and the daily-budget
check with downgrade.  Note the order: a per-call-ceiling downgrade returns
*before* the daily budget is ever consulted. -/
def evaluate_with (re : RiskEngine) (now : ℚ) (agent_id service_id : String)
    (estimated_cost : ℚ) (quantity : ℤ)
    (agent : AgentConfig) (service : ServiceConfig) : PolicyDecision :=
  if service.active = false then
    { action := "DENY", approved_quantity := 0, risk_level := "RISK_OK",
      reason := "Service is not active" }
  else if blockedBy service.blockedAgents agent_id then
    { action := "DENY", approved_quantity := 0, risk_level := "RISK_OK",
      reason := "Agent is blocked from using service" }
  else if notAllowedBy service.allowedAgents agent_id then
    { action := "DENY", approved_quantity := 0, risk_level := "RISK_OK",
      reason := "Agent is not in allowed list for service" }
  else
    let risk := assess_risk re now agent_id service_id estimated_cost
      agent.priority
    if risk.1 = "RISK_BLOCK" then
      { action := "DENY", approved_quantity := 0, risk_level := risk.1,
        reason := "Risk check failed" }
    else if agent.maxPerCall < estimated_cost then
      let max_quantity := pyInt (agent.maxPerCall / service.unitPrice)
      if 0 < max_quantity then
        { action := "DOWNGRADE", approved_quantity := max_quantity,
          risk_level := risk.1, reason := "Cost exceeds maxPerCall. Downgraded" }
      else
        { action := "DENY", approved_quantity := 0, risk_level := risk.1,
          reason := "Cost exceeds maxPerCall" }
    else
      let remaining_budget := agent.dailyBudget - agent.currentDailySpend
      if remaining_budget < estimated_cost then
        let max_quantity := pyInt (remaining_budget / service.unitPrice)
        if 0 < max_quantity then
          { action := "DOWNGRADE", approved_quantity := max_quantity,
            risk_level := risk.1,
            reason := "Insufficient daily budget. Downgraded" }
        else
          { action := "DENY", approved_quantity := 0, risk_level := risk.1,
            reason := "Insufficient daily budget" }
      else
        { action := "ALLOW", approved_quantity := quantity,
          risk_level := risk.1, reason := "Approved" }

/-- `PolicyEngine.evaluate`. -/
def evaluate (pe : PolicyEngine) (now : ℚ) (agent_id service_id : String)
    (estimated_cost : ℚ) (quantity : ℤ) : PolicyDecision :=
  match assocGet pe.agents agent_id with
  | none =>
    { action := "DENY", approved_quantity := 0, risk_level := "RISK_OK",
      reason := "Agent not found in configuration" }
  | some agent =>
    match assocGet pe.services service_id with
    | none =>
      { action := "DENY", approved_quantity := 0, risk_level := "RISK_OK",
        reason := "Service not registered" }
    | some service =>
      evaluate_with pe.risk_engine now agent_id service_id estimated_cost
        quantity agent service

/-- In-place `agent.currentDailySpend += cost` on the agents table. -/
def addSpend (agents : List (String × AgentConfig)) (agent_id : String)
    (cost : ℚ) : List (String × AgentConfig) :=
  agents.map (fun p =>
    if p.1 = agent_id then
      (p.1, { p.2 with currentDailySpend := p.2.currentDailySpend + cost })
    else p)

/-- `PolicyEngine.record_call_result`: always records the call in the risk
engine; on success additionally increments the agent's daily spend. -/
def record_call_result (pe : PolicyEngine) (now : ℚ)
    (agent_id service_id : String) (cost : ℚ) (success : Bool) : PolicyEngine :=
  let pe1 := { pe with
    risk_engine := record_call pe.risk_engine now agent_id service_id cost success }
  if success then
    match assocGet pe1.agents agent_id with
    | some _ => { pe1 with agents := addSpend pe1.agents agent_id cost }
    | none => pe1
  else pe1

/-- `PaymentClient.record_usage`: the *second* writer of
`currentDailySpend` — it bumps the agent's counter directly at payment
time, independently of `record_call_result`.  (The client's own
`usage_records`/`daily_spending` audit structures are not claim-relevant
and are omitted.) -/
def record_usage (pe : PolicyEngine) (agent_id : String) (amount : ℚ) :
    PolicyEngine :=
  match assocGet pe.agents agent_id with
  | some _ => { pe with agents := addSpend pe.agents agent_id amount }
  | none => pe

structure PaymentResult where
  success : Bool
  amount : ℚ
  risk_level : String
  policy_action : String
deriving DecidableEq

/-- `PaymentClient.pay_for_service` with the policy engine attached and no
`override_price`: estimate cost from the service unit price, evaluate
policy (deny stops, downgrade shrinks quantity and re-prices), then quote,
pay, and record usage on success. -/
def pay_for_service (pe : PolicyEngine) (now : ℚ)
    (agent_id service_id : String) (quantity : ℤ)
    (quoteOk payOk : Bool) : PaymentResult × PolicyEngine :=
  let estimated_cost :=
    match assocGet pe.services service_id with
    | some service => service.unitPrice * quantity
    | none => 0
  let decision := evaluate pe now agent_id service_id estimated_cost quantity
  if decision.action = "DENY" then
    ({ success := false, amount := 0, risk_level := decision.risk_level,
       policy_action := "DENY" }, pe)
  else
    let quantity1 :=
      if decision.action = "DOWNGRADE" then decision.approved_quantity
      else quantity
    let estimated_cost1 :=
      if decision.action = "DOWNGRADE" then
        match assocGet pe.services service_id with
        | some service => service.unitPrice * quantity1
        | none => estimated_cost
      else estimated_cost
    if quoteOk = false then
      ({ success := false, amount := 0, risk_level := "RISK_OK",
         policy_action := "ALLOW" }, pe)
    else if payOk = false then
      ({ success := false, amount := 0, risk_level := "RISK_OK",
         policy_action := "ALLOW" }, pe)
    else
      ({ success := true, amount := estimated_cost1, risk_level := "RISK_OK",
         policy_action := "ALLOW" },
       record_usage pe agent_id estimated_cost1)

/-- One invocation of a tool wrapped by `PaidToolWrapper.wrap`:
`pay_for_service`, then `record_call_result` — with `cost_per_call` on a
failed payment, and with the paid amount (success flag mirroring the tool
outcome) after the tool ran.  Returns the updated engine and the amount
actually charged by the payment (0 when no payment happened). -/
def wrapped_call (pe : PolicyEngine) (now : ℚ)
    (service_id agent_id : String) (quantity : ℤ) (cost_per_call : ℚ)
    (quoteOk payOk toolOk : Bool) : PolicyEngine × ℚ :=
  let r := pay_for_service pe now agent_id service_id quantity quoteOk payOk
  if r.1.success = false then
    (record_call_result r.2 now agent_id service_id cost_per_call false, 0)
  else if toolOk then
    (record_call_result r.2 now agent_id service_id r.1.amount true, r.1.amount)
  else
    (record_call_result r.2 now agent_id service_id r.1.amount false, r.1.amount)

/-- One charge attempt of a charge sequence (C1). -/
structure ChargeAttempt where
  quantity : ℤ
  now : ℚ
  quoteOk : Bool
  payOk : Bool
  toolOk : Bool
deriving DecidableEq

/-- A sequence of wrapped paid calls for one agent and one service; returns
the final engine state and the sum of the successfully charged amounts. -/
def runCharges (agent_id service_id : String) (cost_per_call : ℚ) :
    PolicyEngine → List ChargeAttempt → PolicyEngine × ℚ
  | pe, [] => (pe, 0)
  | pe, r :: rest =>
    let s := wrapped_call pe r.now service_id agent_id r.quantity cost_per_call
      r.quoteOk r.payOk r.toolOk
    let t := runCharges agent_id service_id cost_per_call s.1 rest
    (t.1, s.2 + t.2)

/-- The daily-spend counter of an agent. -/
def agentSpend (pe : PolicyEngine) (agent_id : String) : Option ℚ :=
  (assocGet pe.agents agent_id).map (·.currentDailySpend)

/-! ## Helper lemmas for the policy section -/

theorem assocGet_addSpend :
    ∀ (l : List (String × AgentConfig)) (aid : String) (a : AgentConfig)
      (c : ℚ), assocGet l aid = some a →
      assocGet (addSpend l aid c) aid =
        some { a with currentDailySpend := a.currentDailySpend + c }
  | [], _, _, _, h => by simp [assocGet] at h
  | p :: rest, aid, a, c, h => by
    by_cases hp : p.1 = aid
    · rw [assocGet, if_pos hp] at h
      have hpa : p.2 = a := Option.some.inj h
      subst hpa
      simp [assocGet, addSpend, hp]
    · have h' : assocGet rest aid = some a := by
        rw [assocGet, if_neg hp] at h
        exact h
      have := assocGet_addSpend rest aid a c h'
      simp only [addSpend, List.map_cons] at *
      rw [if_neg hp, assocGet, if_neg hp]
      exact this

/-- A positive Python `int(x)` is at most `x`. -/
theorem pyInt_le_self {x : ℚ} (hx : 0 < pyInt x) : (pyInt x : ℚ) ≤ x := by
  unfold pyInt at hx ⊢
  by_cases h : 0 ≤ x
  · rw [if_pos h] at hx ⊢
    exact_mod_cast Int.floor_le x
  · rw [if_neg h] at hx
    have hx0 : x < 0 := not_le.mp h
    have : ⌈x⌉ ≤ 0 := Int.ceil_le.mpr (by exact_mod_cast hx0.le)
    omega

/-- The cost `pay_for_service` will charge after honouring a decision:
the re-priced approved quantity for a downgrade, the full estimate
otherwise. -/
def approvedAmount (u : ℚ) (q : ℤ) (d : PolicyDecision) : ℚ :=
  if d.action = "DOWNGRADE" then u * (d.approved_quantity : ℚ) else u * (q : ℚ)

/-- The decision taken by `evaluate_with` on a request within the per-call
ceiling: either it denies, or the effective approved cost (after a possible
budget downgrade) is nonnegative and fits in the remaining daily budget. -/
theorem evaluate_with_amount (re : RiskEngine) (now : ℚ)
    (aid sid : String) (q : ℤ) (a : AgentConfig) (svc : ServiceConfig)
    (hu : 0 < svc.unitPrice) (hq : 0 ≤ (q : ℚ))
    (hmax : svc.unitPrice * q ≤ a.maxPerCall) :
    (evaluate_with re now aid sid (svc.unitPrice * q) q a svc).action = "DENY"
    ∨ (0 ≤ approvedAmount svc.unitPrice q
          (evaluate_with re now aid sid (svc.unitPrice * q) q a svc)
        ∧ approvedAmount svc.unitPrice q
            (evaluate_with re now aid sid (svc.unitPrice * q) q a svc)
          ≤ a.dailyBudget - a.currentDailySpend) := by
  unfold evaluate_with
  dsimp only
  split_ifs with h1 h2 h3 h4 h5 h6 h7 h8
  · exact Or.inl rfl
  · exact Or.inl rfl
  · exact Or.inl rfl
  · exact Or.inl rfl
  · exact absurd h5 (not_lt.mpr hmax)
  · exact absurd h5 (not_lt.mpr hmax)
  · -- budget downgrade: approved = pyInt (remaining / unitPrice) > 0
    refine Or.inr ?_
    have hamt : approvedAmount svc.unitPrice q
        { action := "DOWNGRADE",
          approved_quantity :=
            pyInt ((a.dailyBudget - a.currentDailySpend) / svc.unitPrice),
          risk_level := (assess_risk re now aid sid (svc.unitPrice * q)
            a.priority).1,
          reason := "Insufficient daily budget. Downgraded" } =
        svc.unitPrice *
          ((pyInt ((a.dailyBudget - a.currentDailySpend) / svc.unitPrice) : ℤ)
            : ℚ) := by
      unfold approvedAmount
      rw [if_pos rfl]
    rw [hamt]
    have hpos : (0 : ℚ) ≤
        (pyInt ((a.dailyBudget - a.currentDailySpend) / svc.unitPrice) : ℚ) := by
      exact_mod_cast h8.le
    refine ⟨mul_nonneg hu.le hpos, ?_⟩
    have hle := pyInt_le_self h8
    calc svc.unitPrice *
          ((pyInt ((a.dailyBudget - a.currentDailySpend) / svc.unitPrice) : ℤ)
            : ℚ)
        ≤ svc.unitPrice *
          ((a.dailyBudget - a.currentDailySpend) / svc.unitPrice) :=
          mul_le_mul_of_nonneg_left hle hu.le
      _ = a.dailyBudget - a.currentDailySpend := by
          rw [mul_comm]
          exact div_mul_cancel₀ _ hu.ne'
  · exact Or.inl rfl
  · -- ALLOW: the full estimated cost fits in the remaining budget
    refine Or.inr ?_
    have hamt : approvedAmount svc.unitPrice q
        { action := "ALLOW", approved_quantity := q,
          risk_level := (assess_risk re now aid sid (svc.unitPrice * q)
            a.priority).1,
          reason := "Approved" } = svc.unitPrice * (q : ℚ) := by
      unfold approvedAmount
      rw [if_neg (show ¬("ALLOW" = "DOWNGRADE") by decide)]
    rw [hamt]
    exact ⟨mul_nonneg hu.le hq, not_lt.mp h7⟩

/-- `evaluate` once agent and service resolve. -/
theorem evaluate_found {pe : PolicyEngine} {aid sid : String}
    {a : AgentConfig} {svc : ServiceConfig} (now cost : ℚ) (q : ℤ)
    (hA : assocGet pe.agents aid = some a)
    (hS : assocGet pe.services sid = some svc) :
    evaluate pe now aid sid cost q =
      evaluate_with pe.risk_engine now aid sid cost q a svc := by
  unfold evaluate
  rw [hA, hS]

/-- Case analysis of `pay_for_service`: either the payment failed and the
engine is untouched, or it succeeded, charged exactly the approved amount of
a non-DENY decision, and recorded that amount through `record_usage`. -/
theorem pay_for_service_spec (pe : PolicyEngine) (now : ℚ)
    (aid sid : String) (q : ℤ) (qOk pOk : Bool) (svc : ServiceConfig)
    (hS : assocGet pe.services sid = some svc) :
    ((pay_for_service pe now aid sid q qOk pOk).1.success = false ∧
      (pay_for_service pe now aid sid q qOk pOk).2 = pe) ∨
    ((pay_for_service pe now aid sid q qOk pOk).1.success = true ∧
      (evaluate pe now aid sid (svc.unitPrice * q) q).action ≠ "DENY" ∧
      (pay_for_service pe now aid sid q qOk pOk).1.amount =
        approvedAmount svc.unitPrice q
          (evaluate pe now aid sid (svc.unitPrice * q) q) ∧
      (pay_for_service pe now aid sid q qOk pOk).2 =
        record_usage pe aid (approvedAmount svc.unitPrice q
          (evaluate pe now aid sid (svc.unitPrice * q) q))) := by
  unfold pay_for_service
  simp only [hS]
  split_ifs with hd hqok hpok <;>
    simp_all [approvedAmount]

/-- Bookkeeping facts about one wrapped call: the charged amount is
nonnegative and within the agent's remaining daily budget (never more than
what is left, and zero when the budget is exhausted); the agent's config
survives with the same budget and ceiling and a spend counter that grew by
at least the charged amount; the services table is untouched. -/
theorem wrapped_call_spec (pe : PolicyEngine) (now : ℚ) (sid aid : String)
    (q : ℤ) (cpc : ℚ) (qOk pOk tOk : Bool) (a : AgentConfig)
    (svc : ServiceConfig)
    (hA : assocGet pe.agents aid = some a)
    (hS : assocGet pe.services sid = some svc)
    (hu : 0 < svc.unitPrice) (hq : 0 ≤ (q : ℚ))
    (hmax : svc.unitPrice * q ≤ a.maxPerCall) :
    0 ≤ (wrapped_call pe now sid aid q cpc qOk pOk tOk).2
    ∧ (wrapped_call pe now sid aid q cpc qOk pOk tOk).2 ≤
        max (a.dailyBudget - a.currentDailySpend) 0
    ∧ ∃ a', assocGet (wrapped_call pe now sid aid q cpc qOk pOk tOk).1.agents
          aid = some a'
        ∧ a'.dailyBudget = a.dailyBudget
        ∧ a'.maxPerCall = a.maxPerCall
        ∧ a.currentDailySpend + (wrapped_call pe now sid aid q cpc qOk pOk
            tOk).2 ≤ a'.currentDailySpend
        ∧ (wrapped_call pe now sid aid q cpc qOk pOk tOk).1.services =
            pe.services := by
  rcases pay_for_service_spec pe now aid sid q qOk pOk svc hS with
    ⟨hfail, hpe⟩ | ⟨hsucc, hnd, hamt, hpe⟩
  · -- payment failed: no charge, spend counter untouched
    have hw : wrapped_call pe now sid aid q cpc qOk pOk tOk =
        (record_call_result (pay_for_service pe now aid sid q qOk pOk).2 now
          aid sid cpc false, 0) := by
      unfold wrapped_call
      rw [if_pos hfail]
    rw [hw]
    have hrcr : record_call_result (pay_for_service pe now aid sid q qOk
        pOk).2 now aid sid cpc false =
        { (pay_for_service pe now aid sid q qOk pOk).2 with
          risk_engine := record_call (pay_for_service pe now aid sid q qOk
            pOk).2.risk_engine now aid sid cpc false } := by
      unfold record_call_result
      rw [if_neg (by decide : ¬(false = true))]
    rw [hrcr, hpe]
    refine ⟨le_refl 0, le_max_right _ _, a, hA, rfl, rfl, by simp, rfl⟩
  · -- payment succeeded: the approved amount was charged and recorded
    have hbound := evaluate_with_amount pe.risk_engine now aid sid q a svc
      hu hq hmax
    rw [← evaluate_found now (svc.unitPrice * q) q hA hS] at hbound
    rcases hbound with hdeny | ⟨h0, hle⟩
    · exact absurd hdeny hnd
    have hw : wrapped_call pe now sid aid q cpc qOk pOk tOk =
        (record_call_result (pay_for_service pe now aid sid q qOk pOk).2 now
          aid sid (pay_for_service pe now aid sid q qOk pOk).1.amount tOk,
         (pay_for_service pe now aid sid q qOk pOk).1.amount) := by
      unfold wrapped_call
      rw [if_neg (by rw [hsucc]; decide)]
      cases tOk
      · rw [if_neg (by decide : ¬(false = true))]
      · rw [if_pos rfl]
    set amt := approvedAmount svc.unitPrice q
      (evaluate pe now aid sid (svc.unitPrice * q) q) with hamtdef
    have hru : (pay_for_service pe now aid sid q qOk pOk).2.agents =
        addSpend pe.agents aid amt ∧
        (pay_for_service pe now aid sid q qOk pOk).2.services =
          pe.services := by
      rw [hpe]
      unfold record_usage
      rw [hA]
      exact ⟨rfl, rfl⟩
    have hA1 : assocGet (pay_for_service pe now aid sid q qOk pOk).2.agents
        aid = some { a with currentDailySpend := a.currentDailySpend + amt } := by
      rw [hru.1]
      exact assocGet_addSpend pe.agents aid a amt hA
    rw [hw, hamt]
    refine ⟨h0, le_trans hle (le_max_left _ _), ?_⟩
    cases tOk
    · -- tool failed: only record_usage wrote the counter
      have hrcr : record_call_result (pay_for_service pe now aid sid q qOk
          pOk).2 now aid sid amt false =
          { (pay_for_service pe now aid sid q qOk pOk).2 with
            risk_engine := record_call (pay_for_service pe now aid sid q qOk
              pOk).2.risk_engine now aid sid amt false } := by
        unfold record_call_result
        rw [if_neg (by decide : ¬(false = true))]
      rw [hrcr]
      exact ⟨{ a with currentDailySpend := a.currentDailySpend + amt },
        hA1, rfl, rfl, le_refl _, hru.2⟩
    · -- tool succeeded: record_call_result wrote the counter a second time
      have hrcr : record_call_result (pay_for_service pe now aid sid q qOk
          pOk).2 now aid sid amt true =
          { (pay_for_service pe now aid sid q qOk pOk).2 with
            risk_engine := record_call (pay_for_service pe now aid sid q qOk
              pOk).2.risk_engine now aid sid amt true,
            agents := addSpend (pay_for_service pe now aid sid q qOk
              pOk).2.agents aid amt } := by
        unfold record_call_result
        rw [if_pos rfl]
        have : assocGet (pay_for_service pe now aid sid q qOk pOk).2.agents
            aid = some { a with currentDailySpend :=
              a.currentDailySpend + amt } := hA1
        rw [this]
      rw [hrcr]
      refine ⟨{ a with currentDailySpend := a.currentDailySpend + amt + amt },
        ?_, rfl, rfl, by simp; linarith, hru.2⟩
      exact assocGet_addSpend _ aid _ amt hA1

/-- Arithmetic step of the budget-bound induction. -/
theorem chargeSum_aux {c t B σ : ℚ} (hc : 0 ≤ c)
    (hcle : c ≤ max (B - σ) 0) (ht : t ≤ max (B - σ - c) 0) :
    c + t ≤ max (B - σ) 0 := by
  have h1 : B - σ ≤ max (B - σ) 0 := le_max_left _ _
  have h2 : (0 : ℚ) ≤ max (B - σ) 0 := le_max_right _ _
  rcases le_or_lt 0 (B - σ - c) with h | h
  · rw [max_eq_left h] at ht
    linarith
  · rw [max_eq_right h.le] at ht
    linarith

/-- Budget-bound induction over a charge sequence: as long as every request
is within the per-call ceiling, the total successfully charged never
exceeds the remaining budget headroom. -/
theorem runCharges_le (aid sid : String) (cpc : ℚ) (svc : ServiceConfig)
    (hu : 0 < svc.unitPrice) :
    ∀ (attempts : List ChargeAttempt) (pe : PolicyEngine) (a : AgentConfig),
      assocGet pe.agents aid = some a →
      assocGet pe.services sid = some svc →
      (∀ r ∈ attempts, 0 ≤ (r.quantity : ℚ) ∧
        svc.unitPrice * r.quantity ≤ a.maxPerCall) →
      (runCharges aid sid cpc pe attempts).2 ≤
        max (a.dailyBudget - a.currentDailySpend) 0
  | [], pe, a, hA, hS, hr => by
    unfold runCharges
    exact le_max_right _ _
  | r :: rest, pe, a, hA, hS, hr => by
    obtain ⟨hq, hmax⟩ := hr r (List.mem_cons_self r rest)
    obtain ⟨h0, hle, a', hA', hB', hM', hσ', hsvc'⟩ :=
      wrapped_call_spec pe r.now sid aid r.quantity cpc r.quoteOk r.payOk
        r.toolOk a svc hA hS hu hq hmax
    have hS' : assocGet (wrapped_call pe r.now sid aid r.quantity cpc
        r.quoteOk r.payOk r.toolOk).1.services sid = some svc := by
      rw [hsvc']
      exact hS
    have ih := runCharges_le aid sid cpc svc hu rest
      (wrapped_call pe r.now sid aid r.quantity cpc r.quoteOk r.payOk
        r.toolOk).1 a' hA' hS'
      (fun r' hr' => by
        rw [hM']
        exact hr r' (List.mem_cons_of_mem _ hr'))
    unfold runCharges
    dsimp only
    have hmono : max (a'.dailyBudget - a'.currentDailySpend) 0 ≤
        max (a.dailyBudget - a.currentDailySpend -
          (wrapped_call pe r.now sid aid r.quantity cpc r.quoteOk r.payOk
            r.toolOk).2) 0 := by
      apply max_le_max_right
      rw [hB']
      linarith
    exact chargeSum_aux h0 hle (le_trans ih hmono)

/-! ## Claim C1 -/

/-- C1, amended: for a day starting at zero spend, the sum of successfully
charged amounts of any evaluate-then-pay sequence stays within the agent's
daily budget *provided every request's estimated cost is within the agent's
per-call ceiling* — i.e. no decision is taken on the `maxPerCall` downgrade
path.  (The unamended claim fails because that path approves
`int(maxPerCall / unitPrice)` units without ever consulting the remaining
daily budget, so oversized requests keep being charged after the budget is
exhausted.)  Sequential execution is assumed, as in the source, which has no
per-agent serialization. -/
theorem dailyCharges_bounded_without_perCall_downgrade
    (aid sid : String) (cpc : ℚ) (attempts : List ChargeAttempt)
    (pe : PolicyEngine) (a : AgentConfig) (svc : ServiceConfig)
    (hA : assocGet pe.agents aid = some a)
    (hS : assocGet pe.services sid = some svc)
    (hu : 0 < svc.unitPrice)
    (hr : ∀ r ∈ attempts, 0 ≤ (r.quantity : ℚ) ∧
      svc.unitPrice * r.quantity ≤ a.maxPerCall)
    (hσ : a.currentDailySpend = 0) (hB : 0 ≤ a.dailyBudget) :
    (runCharges aid sid cpc pe attempts).2 ≤ a.dailyBudget := by
  have h := runCharges_le aid sid cpc svc hu attempts pe a hA hS hr
  rw [hσ, sub_zero, max_eq_left hB] at h
  exact h

/-- One agent with daily budget 10 and per-call ceiling 5, one active
1-MNEE-per-unit service, fresh risk engine (C1 counterexample). -/
def c1Engine : PolicyEngine :=
  { agents := [("buyer",
      { id := "buyer", priority := "HIGH", dailyBudget := 10,
        maxPerCall := 5, currentDailySpend := 0 })]
    services := [("gen", { id := "gen", unitPrice := 1, active := true })]
    risk_engine := { call_history := [], provider_failure_counts := [] } }

/-- Three identical oversized requests (6 units at unit price 1). -/
def c1Attempts : List ChargeAttempt :=
  [{ quantity := 6, now := 0, quoteOk := true, payOk := true, toolOk := true },
   { quantity := 6, now := 1, quoteOk := true, payOk := true, toolOk := true },
   { quantity := 6, now := 2, quoteOk := true, payOk := true, toolOk := true }]

/-- Counterexample to C1 as stated: each 6-unit request exceeds the per-call
ceiling 5, so `evaluate` takes the `maxPerCall` downgrade path, which never
checks the daily budget; each call is downgraded to 5 units and charged, and
three calls charge 15 > 10 = dailyBudget in one day. -/
theorem budget_exceeded_via_perCall_downgrade :
    (runCharges "buyer" "gen" 1 c1Engine c1Attempts).2 = 15
    ∧ ¬((15 : ℚ) ≤ 10) := by
  constructor
  · norm_num +decide [c1Engine, c1Attempts, runCharges, wrapped_call,
      pay_for_service, evaluate, evaluate_with, assess_risk,
      record_call_result, record_usage, record_call, addSpend, assocGet,
      pyInt, blockedBy, notAllowedBy, failureCount, bumpFailure]
  · norm_num

/-- Witness for the amended C1: two 5-unit requests (within the per-call
ceiling) charge at most the 10-MNEE daily budget. -/
theorem dailyCharges_bounded_witness :
    (runCharges "buyer" "gen" 1 c1Engine
      [{ quantity := 5, now := 0, quoteOk := true, payOk := true,
         toolOk := true },
       { quantity := 5, now := 1, quoteOk := true, payOk := true,
         toolOk := true }]).2 ≤ 10 := by
  have h := dailyCharges_bounded_without_perCall_downgrade "buyer" "gen" 1
    [{ quantity := 5, now := 0, quoteOk := true, payOk := true,
       toolOk := true },
     { quantity := 5, now := 1, quoteOk := true, payOk := true,
       toolOk := true }]
    c1Engine
    { id := "buyer", priority := "HIGH", dailyBudget := 10,
      maxPerCall := 5, currentDailySpend := 0 }
    { id := "gen", unitPrice := 1, active := true }
    rfl rfl (by norm_num)
    (by
      intro r hr
      simp only [List.mem_cons, List.not_mem_nil, or_false] at hr
      rcases hr with rfl | rfl <;> norm_num)
    rfl (by norm_num)
  simpa [c1Engine] using h

/-! ## Claim C2 -/

/-- C2, amended: (1) whenever risk assessment yields RISK_BLOCK for the
agent's priority, `evaluate` returns DENY with approved quantity 0,
regardless of remaining budget (missing agent/service and access-control
branches also deny with quantity 0); (2) the burst rule blocks exactly when
*strictly more than 5 previously recorded* calls from the agent fall within
the last 60 seconds *and those previous calls alone* cost more than 10
currency units — so a 6th call after 5 recorded calls is *not* blocked (the
call being assessed is not yet in the history and its own cost is not
counted), while a 7th call after 6 recorded calls totalling more than 10
is blocked and denied; (3) with at most 5 recent calls the assessment never
returns RISK_BLOCK. -/
theorem risk_block_rules :
    (∀ (pe : PolicyEngine) (now : ℚ) (aid sid : String) (cost : ℚ) (q : ℤ),
      (∀ a, assocGet pe.agents aid = some a →
        (assess_risk pe.risk_engine now aid sid cost a.priority).1 =
          "RISK_BLOCK") →
      (evaluate pe now aid sid cost q).action = "DENY" ∧
      (evaluate pe now aid sid cost q).approved_quantity = 0)
    ∧ (∀ (re : RiskEngine) (now : ℚ) (aid sid : String) (cost : ℚ)
        (prio : String),
      5 < (re.call_history.filter
        (fun c => decide (c.agent_id = aid ∧ now - 60 < c.timestamp))).length →
      10 < ((re.call_history.filter
        (fun c => decide (c.agent_id = aid ∧ now - 60 < c.timestamp))).map
          (·.cost)).sum →
      (assess_risk re now aid sid cost prio).1 = "RISK_BLOCK")
    ∧ (∀ (re : RiskEngine) (now : ℚ) (aid sid : String) (cost : ℚ)
        (prio : String),
      (re.call_history.filter
        (fun c => decide (c.agent_id = aid ∧ now - 60 < c.timestamp))).length
        ≤ 5 →
      (assess_risk re now aid sid cost prio).1 ≠ "RISK_BLOCK") := by
  refine ⟨?_, ?_, ?_⟩
  · intro pe now aid sid cost q h
    unfold evaluate
    cases hA : assocGet pe.agents aid with
    | none => exact ⟨rfl, rfl⟩
    | some a =>
      cases hS : assocGet pe.services sid with
      | none => exact ⟨rfl, rfl⟩
      | some svc =>
        have hb := h a hA
        unfold evaluate_with
        dsimp only
        split_ifs with h1 h2 h3 <;> exact ⟨rfl, rfl⟩
  · intro re now aid sid cost prio hlen hsum
    unfold assess_risk
    dsimp only
    rw [if_pos ⟨hlen, hsum⟩]
  · intro re now aid sid cost prio hlen
    unfold assess_risk
    dsimp only
    rw [if_neg (fun hc => absurd hc.1 (not_lt.mpr hlen))]
    split_ifs <;> decide

/-- Five recorded calls by `buyer` within the last minute, costing 1.9 each
(9.5 in total; 10.5 together with the 6th call being assessed). -/
def c2Risk : RiskEngine :=
  { call_history :=
      [{ agent_id := "buyer", service_id := "gen", cost := 19/10,
         timestamp := 10, success := true },
       { agent_id := "buyer", service_id := "gen", cost := 19/10,
         timestamp := 11, success := true },
       { agent_id := "buyer", service_id := "gen", cost := 19/10,
         timestamp := 12, success := true },
       { agent_id := "buyer", service_id := "gen", cost := 19/10,
         timestamp := 13, success := true },
       { agent_id := "buyer", service_id := "gen", cost := 19/10,
         timestamp := 14, success := true }]
    provider_failure_counts := [] }

def c2Engine : PolicyEngine :=
  { agents := [("buyer",
      { id := "buyer", priority := "HIGH", dailyBudget := 100,
        maxPerCall := 50, currentDailySpend := 0 })]
    services := [("gen", { id := "gen", unitPrice := 1, active := true })]
    risk_engine := c2Risk }

/-- Counterexample to C2 as stated: an agent with 5 calls in the last 60
seconds makes a 6th call whose cost takes the combined recent cost above 10
units — but `assess_risk` sees only the 5 *prior* calls (`5 > 5` is false,
and the current call's cost is not in the sum), so the call is assessed
RISK_OK and allowed, not RISK_BLOCK/denied. -/
theorem sixth_burst_call_allowed :
    (assess_risk c2Risk 30 "buyer" "gen" 1 "HIGH").1 = "RISK_OK"
    ∧ (evaluate c2Engine 30 "buyer" "gen" 1 1).action = "ALLOW"
    ∧ (19 : ℚ)/10 * 5 + 1 > 10 := by
  refine ⟨?_, ?_, by norm_num⟩
  · norm_num +decide [c2Risk, assess_risk, failureCount, assocGet]
  · norm_num +decide [c2Engine, c2Risk, evaluate, evaluate_with, assess_risk,
      failureCount, assocGet, blockedBy, notAllowedBy, pyInt]

/-- Six recorded calls by `buyer` within the last minute, costing 2 each
(12 in total), for the amended-C2 witness: the 7th call is blocked. -/
def c2wEngine : PolicyEngine :=
  { agents := [("buyer",
      { id := "buyer", priority := "HIGH", dailyBudget := 100,
        maxPerCall := 50, currentDailySpend := 0 })]
    services := [("gen", { id := "gen", unitPrice := 1, active := true })]
    risk_engine :=
      { call_history :=
          [{ agent_id := "buyer", service_id := "gen", cost := 2,
             timestamp := 10, success := true },
           { agent_id := "buyer", service_id := "gen", cost := 2,
             timestamp := 11, success := true },
           { agent_id := "buyer", service_id := "gen", cost := 2,
             timestamp := 12, success := true },
           { agent_id := "buyer", service_id := "gen", cost := 2,
             timestamp := 13, success := true },
           { agent_id := "buyer", service_id := "gen", cost := 2,
             timestamp := 14, success := true },
           { agent_id := "buyer", service_id := "gen", cost := 2,
             timestamp := 15, success := true }]
        provider_failure_counts := [] } }

/-- Witness for the amended C2: a 7th call after 6 recent recorded calls
totalling 12 > 10 units is denied with quantity 0, despite ample budget. -/
theorem risk_block_rules_witness :
    (evaluate c2wEngine 30 "buyer" "gen" 2 1).action = "DENY" ∧
    (evaluate c2wEngine 30 "buyer" "gen" 2 1).approved_quantity = 0 :=
  risk_block_rules.1 c2wEngine 30 "buyer" "gen" 2 1
    (fun a ha => by
      have hcfg : ({ id := "buyer", priority := "HIGH", dailyBudget := 100,
                     maxPerCall := 50,
                     currentDailySpend := 0 } : AgentConfig) = a := by
        have h := ha
        simp [c2wEngine, assocGet] at h
        exact h
      subst hcfg
      exact risk_block_rules.2.1 c2wEngine.risk_engine 30 "buyer" "gen" 2
        "HIGH"
        (by norm_num +decide [c2wEngine])
        (by norm_num +decide [c2wEngine]))

/-! ## Claim C7 -/

/-- C7, amended: `record_call_result` is *not* the single write path to the
agent's daily-spend counter.  On a successful paid call of amount `c` the
counter is written twice: `PaymentClient.record_usage` adds `c` at payment
time, and `PolicyEngine.record_call_result` adds `c` again when the tool
call succeeds — so the counter grows by `2c` for a fully successful wrapped
call, and by `c` (from `record_usage` alone) when the tool then fails. -/
theorem spend_counter_double_write (pe : PolicyEngine) (now : ℚ)
    (sid aid : String) (q : ℤ) (cpc : ℚ) (qOk pOk tOk : Bool)
    (a : AgentConfig) (svc : ServiceConfig)
    (hA : assocGet pe.agents aid = some a)
    (hS : assocGet pe.services sid = some svc)
    (hsucc : (pay_for_service pe now aid sid q qOk pOk).1.success = true) :
    agentSpend (wrapped_call pe now sid aid q cpc qOk pOk tOk).1 aid =
      some (a.currentDailySpend
        + (pay_for_service pe now aid sid q qOk pOk).1.amount
        + (if tOk then (pay_for_service pe now aid sid q qOk pOk).1.amount
           else 0)) := by
  rcases pay_for_service_spec pe now aid sid q qOk pOk svc hS with
    ⟨hfail, _⟩ | ⟨_, _, hamt, hpe⟩
  · rw [hfail] at hsucc
    cases hsucc
  · set amt := approvedAmount svc.unitPrice q
      (evaluate pe now aid sid (svc.unitPrice * q) q) with hamtdef
    have hru : (pay_for_service pe now aid sid q qOk pOk).2.agents =
        addSpend pe.agents aid amt := by
      rw [hpe]
      unfold record_usage
      rw [hA]
    have hA1 : assocGet (pay_for_service pe now aid sid q qOk pOk).2.agents
        aid = some { a with currentDailySpend :=
          a.currentDailySpend + amt } := by
      rw [hru]
      exact assocGet_addSpend pe.agents aid a amt hA
    have hw : wrapped_call pe now sid aid q cpc qOk pOk tOk =
        (record_call_result (pay_for_service pe now aid sid q qOk pOk).2 now
          aid sid (pay_for_service pe now aid sid q qOk pOk).1.amount tOk,
         (pay_for_service pe now aid sid q qOk pOk).1.amount) := by
      unfold wrapped_call
      rw [if_neg (by rw [hsucc]; decide)]
      cases tOk
      · rw [if_neg (by decide : ¬(false = true))]
      · rw [if_pos rfl]
    rw [hw, hamt]
    cases tOk
    · have hrcr : record_call_result (pay_for_service pe now aid sid q qOk
          pOk).2 now aid sid amt false =
          { (pay_for_service pe now aid sid q qOk pOk).2 with
            risk_engine := record_call (pay_for_service pe now aid sid q qOk
              pOk).2.risk_engine now aid sid amt false } := by
        unfold record_call_result
        rw [if_neg (by decide : ¬(false = true))]
      rw [hrcr]
      unfold agentSpend
      rw [show ({ (pay_for_service pe now aid sid q qOk pOk).2 with
            risk_engine := record_call (pay_for_service pe now aid sid q qOk
              pOk).2.risk_engine now aid sid amt false } :
          PolicyEngine).agents =
          (pay_for_service pe now aid sid q qOk pOk).2.agents from rfl, hA1]
      simp
    · have hrcr : record_call_result (pay_for_service pe now aid sid q qOk
          pOk).2 now aid sid amt true =
          { (pay_for_service pe now aid sid q qOk pOk).2 with
            risk_engine := record_call (pay_for_service pe now aid sid q qOk
              pOk).2.risk_engine now aid sid amt true,
            agents := addSpend (pay_for_service pe now aid sid q qOk
              pOk).2.agents aid amt } := by
        unfold record_call_result
        rw [if_pos rfl, hA1]
      rw [hrcr]
      unfold agentSpend
      rw [show ({ (pay_for_service pe now aid sid q qOk pOk).2 with
            risk_engine := record_call (pay_for_service pe now aid sid q qOk
              pOk).2.risk_engine now aid sid amt true,
            agents := addSpend (pay_for_service pe now aid sid q qOk
              pOk).2.agents aid amt } : PolicyEngine).agents =
          addSpend (pay_for_service pe now aid sid q qOk pOk).2.agents aid amt
          from rfl]
      rw [assocGet_addSpend _ aid _ amt hA1]
      simp [add_assoc]

/-- One agent / one service engine for the C7 counterexample. -/
def c7Engine : PolicyEngine :=
  { agents := [("buyer",
      { id := "buyer", priority := "HIGH", dailyBudget := 10,
        maxPerCall := 5, currentDailySpend := 0 })]
    services := [("gen", { id := "gen", unitPrice := 1, active := true })]
    risk_engine := { call_history := [], provider_failure_counts := [] } }

/-- Counterexample to C7 as stated: a fully successful wrapped call of
amount 1 leaves the daily-spend counter at 2, not 1 — `record_usage`
(client.py) and `record_call_result` (engine.py) both write the counter. -/
theorem spend_counter_not_single_write :
    agentSpend (wrapped_call c7Engine 0 "gen" "buyer" 1 1 true true true).1
      "buyer" = some 2
    ∧ (wrapped_call c7Engine 0 "gen" "buyer" 1 1 true true true).2 = 1
    ∧ ¬((2 : ℚ) = 0 + 1) := by
  refine ⟨?_, ?_, by norm_num⟩ <;>
    norm_num +decide [c7Engine, agentSpend, wrapped_call, pay_for_service,
      evaluate, evaluate_with, assess_risk, record_call_result, record_usage,
      record_call, addSpend, assocGet, pyInt, blockedBy, notAllowedBy,
      failureCount, bumpFailure]

/-- Witness for the amended C7 at the concrete engine: the counter ends at
`spend + amount + amount` after a successful call with a successful tool
run. -/
theorem spend_counter_double_write_witness :
    agentSpend (wrapped_call c7Engine 0 "gen" "buyer" 1 1 true true true).1
      "buyer" =
      some (0 + (pay_for_service c7Engine 0 "buyer" "gen" 1 true true).1.amount
        + (if true then
            (pay_for_service c7Engine 0 "buyer" "gen" 1 true true).1.amount
          else 0)) :=
  spend_counter_double_write c7Engine 0 "gen" "buyer" 1 1 true true true
    { id := "buyer", priority := "HIGH", dailyBudget := 10,
      maxPerCall := 5, currentDailySpend := 0 }
    { id := "gen", unitPrice := 1, active := true }
    rfl rfl
    (by
      norm_num +decide [c7Engine, pay_for_service, evaluate, evaluate_with,
        assess_risk, assocGet, blockedBy, notAllowedBy, failureCount, pyInt])

/-! ## Verification funnel (src/backend/agents/nodes/verifier.py)

`LocalVerifier.verify` / `AINetworkVerifier.verify` / `HybridVerifier.verify`.
The optional LLM of `LocalVerifier` is modelled as an optional semantic
scoring function (`_semantic_check`); the production graph constructs
`get_verifier()` with no LLM.  The AI network's simulated `0.85 / 0.2`
scoring is kept as in the source. -/

structure VerifResult where
  passed : Bool
  score : ℚ
  reason : String
  layer : String
deriving DecidableEq

/-- `LocalVerifier._validate_tool_output`: tool-specific structural check,
`(score, reason)`. -/
def validate_tool_output (tool_name : String) (output : PyDict) : ℚ × String :=
  if tool_name = "image_gen" then
    if pyGetTruthy output "image_url" || pyGetTruthy output "url" ||
        pyGetTruthy output "data" then (9/10, "Valid image output")
    else (3/10, "Missing image URL/data")
  else if tool_name = "price_oracle" then
    if pyGetIsNotNone output "price" || pyGetTruthy output "prices" then
      (9/10, "Valid price data")
    else (3/10, "Missing price information")
  else if tool_name = "batch_compute" then
    if pyGetTruthy output "results" || pyGetTruthy output "data" ||
        pyGetTruthy output "output" then (9/10, "Valid computation results")
    else (3/10, "Missing computation results")
  else if tool_name = "log_archive" then
    if pyGetTruthy output "archived" || pyGetTruthy output "success" ||
        pyGetTruthy output "cid" then (9/10, "Archive confirmed")
    else (3/10, "Archive not confirmed")
  else
    if 0 < output.length ∧ pyGetTruthy output "error" = false then
      (8/10, "Output present")
    else (4/10, "Generic validation")

/-- `LocalVerifier.verify` (pass threshold 0.7 from the constructor):
empty output scores 0.0 and fails; an error-bearing output scores 0.1 and
fails; otherwise the structural score, optionally blended with the semantic
score when an LLM is attached and the structural score is at least 0.5. -/
def local_verify (llm : Option (String → PyDict → ℚ))
    (task_description tool_name : String) (output : PyDict) : VerifResult :=
  if output = [] then
    { passed := false, score := 0, reason := "Empty output", layer := "local" }
  else if pyGetTruthy output "error" || pyGetTruthy output "_error" then
    { passed := false, score := 1/10, reason := "Output contains error",
      layer := "local" }
  else
    let sr := validate_tool_output tool_name output
    let score :=
      match llm with
      | some sem =>
        if 1/2 ≤ sr.1 then (sr.1 + sem task_description output) / 2 else sr.1
      | none => sr.1
    { passed := decide (7/10 ≤ score), score := score,
      reason := if 7/10 ≤ score then "Verification passed" else sr.2,
      layer := "local" }

/-- `AINetworkVerifier.verify` (simulated): score 0.85 when the output is
non-empty and error-free, 0.2 otherwise; same 0.7 pass threshold. -/
def ai_network_verify (task_description tool_name : String)
    (output : PyDict) : VerifResult :=
  let has_result := output ≠ [] ∧ pyGetTruthy output "error" = false
  let score : ℚ := if has_result then 85/100 else 2/10
  { passed := decide (7/10 ≤ score), score := score,
    reason := if 7/10 ≤ score then "AI network consensus"
      else "AI network rejected",
    layer := "ai_network" }

/-- `HybridVerifier.verify`: Local always runs first; the AI network layer
runs when forced, or when Local did not pass with a score of at least 0.3.
The oracle layer is only reachable through the dispute path, never here. -/
def hybrid_verify (llm : Option (String → PyDict → ℚ))
    (force_layer : Option String) (task_description tool_name : String)
    (output : PyDict) : VerifResult :=
  let result := local_verify llm task_description tool_name output
  if force_layer = some "ai_network" ∨
      (result.passed = false ∧ 3/10 ≤ result.score) then
    ai_network_verify task_description tool_name output
  else result

theorem local_verify_layer (llm : Option (String → PyDict → ℚ))
    (task tool : String) (out : PyDict) :
    (local_verify llm task tool out).layer = "local" := by
  unfold local_verify
  split_ifs <;> rfl

theorem ai_network_verify_layer (task tool : String) (out : PyDict) :
    (ai_network_verify task tool out).layer = "ai_network" := rfl

/-- A structural score of 0.9 is only produced on a non-empty output. -/
theorem validate_nine_tenths_nonempty (tool : String) (out : PyDict)
    (h : (validate_tool_output tool out).1 = 9/10) : out ≠ [] := by
  intro hout
  subst hout
  have hg : ∀ k, pyGetTruthy ([] : PyDict) k = false := fun _ => rfl
  have hn : ∀ k, pyGetIsNotNone ([] : PyDict) k = false := fun _ => rfl
  unfold validate_tool_output at h
  simp only [hg, hn, Bool.or_self, Bool.or_false, Bool.false_or] at h
  split_ifs at h <;> first | contradiction | exact absurd h (by norm_num)

/-! ## Claim C8 -/

/-- C8: the verification funnel (production configuration: no LLM attached,
no forced layer).  (1) An empty output map gets local score 0, fails, and is
not escalated (the hybrid result is still the local one).  (2) The
AI-network layer produces the hybrid result exactly when the local result
did not pass and its score is at least 0.3.  (3) A result passes a layer
exactly when its score is at least the 0.7 threshold, for both the local
and the AI-network layer.  (4) An error-free output whose tool-specific
structural check scores 0.9 (the expected field present) passes at Local
with score 0.9 and is not escalated. -/
theorem verification_funnel :
    (∀ task tool : String,
      local_verify none task tool [] =
        { passed := false, score := 0, reason := "Empty output",
          layer := "local" }
      ∧ hybrid_verify none none task tool [] =
        { passed := false, score := 0, reason := "Empty output",
          layer := "local" })
    ∧ (∀ (llm : Option (String → PyDict → ℚ)) (task tool : String)
        (out : PyDict),
      (hybrid_verify llm none task tool out).layer = "ai_network" ↔
        (local_verify llm task tool out).passed = false ∧
          3/10 ≤ (local_verify llm task tool out).score)
    ∧ (∀ (llm : Option (String → PyDict → ℚ)) (task tool : String)
        (out : PyDict),
      ((local_verify llm task tool out).passed = true ↔
        7/10 ≤ (local_verify llm task tool out).score)
      ∧ ((ai_network_verify task tool out).passed = true ↔
        7/10 ≤ (ai_network_verify task tool out).score))
    ∧ (∀ (task tool : String) (out : PyDict),
      pyGetTruthy out "error" = false → pyGetTruthy out "_error" = false →
      (validate_tool_output tool out).1 = 9/10 →
      hybrid_verify none none task tool out = local_verify none task tool out
      ∧ (local_verify none task tool out).passed = true
      ∧ (local_verify none task tool out).score = 9/10) := by
  have hempty : ∀ task tool : String,
      local_verify none task tool [] =
        { passed := false, score := 0, reason := "Empty output",
          layer := "local" } := by
    intro task tool
    unfold local_verify
    rw [if_pos rfl]
  refine ⟨?_, ?_, ?_, ?_⟩
  · intro task tool
    refine ⟨hempty task tool, ?_⟩
    unfold hybrid_verify
    dsimp only
    rw [hempty task tool]
    rw [if_neg (fun h => h.elim (fun hc => Option.noConfusion hc)
      (fun hc => absurd hc.2 (by norm_num)))]
  · intro llm task tool out
    unfold hybrid_verify
    dsimp only
    by_cases hC : (local_verify llm task tool out).passed = false ∧
        3/10 ≤ (local_verify llm task tool out).score
    · rw [if_pos (Or.inr hC)]
      simp [ai_network_verify_layer, hC]
    · rw [if_neg (fun h => h.elim (fun hc => Option.noConfusion hc) hC)]
      rw [local_verify_layer]
      simp [hC]
  · intro llm task tool out
    constructor
    · unfold local_verify
      split_ifs with h1 h2
      · simp
      · simp
        norm_num
      · simp
    · unfold ai_network_verify
      dsimp only
      simp
  · intro task tool out herr herr2 hval
    have hne := validate_nine_tenths_nonempty tool out hval
    have hl : local_verify none task tool out =
        { passed := true, score := 9/10, reason := "Verification passed",
          layer := "local" } := by
      unfold local_verify
      rw [if_neg hne]
      rw [show (pyGetTruthy out "error" || pyGetTruthy out "_error") = false
        by rw [herr, herr2]; rfl]
      rw [if_neg (by decide : ¬((false : Bool) = true))]
      dsimp only
      rw [hval]
      norm_num
    refine ⟨?_, by rw [hl], by rw [hl]⟩
    unfold hybrid_verify
    dsimp only
    rw [hl]
    rw [if_neg (fun h => h.elim (fun hc => Option.noConfusion hc)
      (fun hc => Bool.noConfusion hc.1))]

/-- Witness for C8: an image-generation output with the expected
`image_url` field passes at Local with score 0.9, unescalated. -/
theorem verification_funnel_witness :
    hybrid_verify none none "draw a logo" "image_gen"
        [("image_url", PyVal.vstr "ipfs://logo")] =
      local_verify none "draw a logo" "image_gen"
        [("image_url", PyVal.vstr "ipfs://logo")]
    ∧ (local_verify none "draw a logo" "image_gen"
        [("image_url", PyVal.vstr "ipfs://logo")]).passed = true
    ∧ (local_verify none "draw a logo" "image_gen"
        [("image_url", PyVal.vstr "ipfs://logo")]).score = 9/10 :=
  verification_funnel.2.2.2 "draw a logo" "image_gen"
    [("image_url", PyVal.vstr "ipfs://logo")] rfl rfl rfl

/-! ## Service-call hash (src/backend/payment/client.py)

`PaymentClient.build_service_call_hash` canonicalizes the payload with
`json.dumps(payload_dict, sort_keys=True, separators=(',', ':'))` and hashes
`f"{service_id}|{agent_id}|{task_id}|{canonical_payload}"` with SHA-256.
Following the global convention, the digest is modelled by its pre-image
string.  Payload values are modelled by their JSON literal text (e.g. the
number `1` by the text `1`); payload keys are assumed to need no JSON
escaping, which holds for every payload the repository builds. -/

/-- Python string comparison (code-point lexicographic) as used by
`sort_keys=True`. -/
def strLe : List Char → List Char → Bool
  | [], _ => true
  | _ :: _, [] => false
  | a :: as, b :: bs => if a = b then strLe as bs else decide (a < b)

/-- Key order on payload entries. -/
def pairKeyLe (p q : String × String) : Prop :=
  strLe p.1.data q.1.data = true

instance : DecidableRel pairKeyLe := fun p q => by
  unfold pairKeyLe
  infer_instance

theorem strLe_total : ∀ a b : List Char, strLe a b = true ∨ strLe b a = true
  | [], _ => Or.inl rfl
  | _ :: _, [] => Or.inr rfl
  | a :: as, b :: bs => by
    by_cases hab : a = b
    · subst hab
      rcases strLe_total as bs with h | h
      · exact Or.inl (by rw [strLe, if_pos rfl]; exact h)
      · exact Or.inr (by rw [strLe, if_pos rfl]; exact h)
    · rcases lt_or_gt_of_ne hab with h | h
      · exact Or.inl (by rw [strLe, if_neg hab]; exact decide_eq_true h)
      · exact Or.inr (by
          rw [strLe, if_neg (Ne.symm hab)]
          exact decide_eq_true h)

theorem strLe_antisymm : ∀ a b : List Char,
    strLe a b = true → strLe b a = true → a = b
  | [], [], _, _ => rfl
  | [], _ :: _, _, h => by cases h
  | _ :: _, [], h, _ => by cases h
  | a :: as, b :: bs, h1, h2 => by
    by_cases hab : a = b
    · subst hab
      rw [strLe, if_pos rfl] at h1 h2
      rw [strLe_antisymm as bs h1 h2]
    · rw [strLe, if_neg hab] at h1
      rw [strLe, if_neg (Ne.symm hab)] at h2
      exact absurd (lt_trans (of_decide_eq_true h1) (of_decide_eq_true h2))
        (lt_irrefl a)

theorem strLe_trans : ∀ a b c : List Char,
    strLe a b = true → strLe b c = true → strLe a c = true
  | [], _, _, _, _ => rfl
  | _ :: _, [], _, h, _ => by cases h
  | _ :: _, _ :: _, [], _, h => by cases h
  | a :: as, b :: bs, c :: cs, h1, h2 => by
    by_cases hab : a = b <;> by_cases hbc : b = c
    · subst hab
      subst hbc
      rw [strLe, if_pos rfl] at h1 h2 ⊢
      exact strLe_trans as bs cs h1 h2
    · subst hab
      rw [strLe, if_neg hbc] at h2 ⊢
      exact h2
    · subst hbc
      rw [strLe, if_neg hab] at h1 ⊢
      exact h1
    · rw [strLe, if_neg hab] at h1
      rw [strLe, if_neg hbc] at h2
      have hac : a < c := lt_trans (of_decide_eq_true h1) (of_decide_eq_true h2)
      rw [strLe, if_neg (ne_of_lt hac)]
      exact decide_eq_true hac

instance : IsTotal (String × String) pairKeyLe :=
  ⟨fun p q => strLe_total p.1.data q.1.data⟩

instance : IsTrans (String × String) pairKeyLe :=
  ⟨fun _ _ _ h1 h2 => strLe_trans _ _ _ h1 h2⟩

/-- `sorted(payload.items())` by key, as done by `json.dumps(sort_keys=True)`. -/
def sortPairs (l : List (String × String)) : List (String × String) :=
  List.insertionSort pairKeyLe l

/-- Strict key order, used to show sortedness pins the list down. -/
def pairKeyLt (p q : String × String) : Prop :=
  strLe q.1.data p.1.data = false

instance : IsAntisymm (String × String) pairKeyLt :=
  ⟨fun p q h1 h2 => by
    unfold pairKeyLt at h1 h2
    rcases strLe_total p.1.data q.1.data with h | h
    · rw [h] at h2
      cases h2
    · rw [h] at h1
      cases h1⟩

theorem string_data_inj {a b : String} (h : a.data = b.data) : a = b := by
  cases a
  cases b
  exact congrArg String.mk h

/-- With duplicate-free keys, sorting by key determines the list uniquely:
permuted payloads canonicalize identically. -/
theorem sortPairs_perm_eq (l1 l2 : List (String × String))
    (hp : l1.Perm l2) (hnd : (l1.map Prod.fst).Nodup) :
    sortPairs l1 = sortPairs l2 := by
  have hs1 : List.Sorted pairKeyLe (sortPairs l1) :=
    List.sorted_insertionSort pairKeyLe l1
  have hs2 : List.Sorted pairKeyLe (sortPairs l2) :=
    List.sorted_insertionSort pairKeyLe l2
  have hperm : (sortPairs l1).Perm (sortPairs l2) :=
    ((List.perm_insertionSort pairKeyLe l1).trans hp).trans
      (List.perm_insertionSort pairKeyLe l2).symm
  have hnd1 : ((sortPairs l1).map Prod.fst).Nodup :=
    (List.Perm.map Prod.fst (List.perm_insertionSort pairKeyLe l1)).nodup_iff.mpr
      hnd
  have hnd2 : ((sortPairs l2).map Prod.fst).Nodup :=
    (List.Perm.map Prod.fst hperm).nodup_iff.mp hnd1
  have hstrict : ∀ m : List (String × String),
      List.Sorted pairKeyLe m → (m.map Prod.fst).Nodup →
      List.Sorted pairKeyLt m := by
    intro m hs hn
    have hpw : m.Pairwise (fun p q => p.1 ≠ q.1) := List.pairwise_map.mp hn
    exact (hs.and hpw).imp (fun hh => by
      rcases hh with ⟨hle, hne⟩
      unfold pairKeyLe at hle
      unfold pairKeyLt
      cases hval : strLe _ _
      · rfl
      · exact absurd
          (string_data_inj (strLe_antisymm _ _ hle hval)) hne)
  exact List.eq_of_perm_of_sorted hperm (hstrict _ hs1 hnd1)
    (hstrict _ hs2 hnd2)

/-- One serialized JSON object entry `"key":value` (compact separators). -/
def entryChars (p : String × String) : List Char :=
  '"' :: (p.1.data ++ '"' :: ':' :: p.2.data)

/-- Comma-joined serialized entries. -/
def bodyChars : List (String × String) → List Char
  | [] => []
  | p :: rest =>
    entryChars p ++ (match rest with
      | [] => []
      | _ :: _ => ',' :: bodyChars rest)

/-- `json.dumps(payload_dict, sort_keys=True, separators=(',', ':'))`. -/
def canonPayloadChars (l : List (String × String)) : List Char :=
  '\x7b' :: (bodyChars (sortPairs l) ++ ['\x7d'])

/-- The SHA-256 pre-image
`f"{service_id}|{agent_id}|{task_id}|{canonical_payload}"`. -/
def hashInputChars (service_id agent_id task_id : String)
    (payload_dict : List (String × String)) : List Char :=
  service_id.data ++ '|' :: (agent_id.data ++ '|' :: (task_id.data ++
    '|' :: canonPayloadChars payload_dict))

/-- `PaymentClient.build_service_call_hash`, with the digest modelled by its
pre-image. -/
def build_service_call_hash (service_id agent_id task_id : String)
    (payload_dict : List (String × String)) : String :=
  String.mk (hashInputChars service_id agent_id task_id payload_dict)

/-- Splitting a concatenation at the first occurrence of a marker character
absent from both prefixes. -/
theorem splitAtChar (c : Char) : ∀ (a b x y : List Char),
    c ∉ a → c ∉ b → a ++ c :: x = b ++ c :: y → a = b ∧ x = y
  | [], [], x, y, _, _, h => ⟨rfl, by simpa using h⟩
  | [], hb :: tb, x, y, _, hnb, h => by
    simp only [List.nil_append, List.cons_append, List.cons.injEq] at h
    exact absurd (h.1 ▸ List.mem_cons_self hb tb) hnb
  | ha :: ta, [], x, y, hna, _, h => by
    simp only [List.nil_append, List.cons_append, List.cons.injEq] at h
    exact absurd (h.1.symm ▸ List.mem_cons_self ha ta) hna
  | ha :: ta, hb :: tb, x, y, hna, hnb, h => by
    simp only [List.cons_append, List.cons.injEq] at h
    obtain ⟨hh, ht⟩ := h
    have := splitAtChar c ta tb x y
      (fun hc => hna (List.mem_cons_of_mem _ hc))
      (fun hc => hnb (List.mem_cons_of_mem _ hc)) ht
    exact ⟨by rw [hh, this.1], this.2⟩

/-- The payload entries admit compact JSON serialization without escapes:
no quote in keys or values, no comma in values. -/
def jsonSafe (l : List (String × String)) : Prop :=
  ∀ p ∈ l, '"' ∉ p.1.data ∧ '"' ∉ p.2.data ∧ ',' ∉ p.2.data

theorem bodyChars_inj : ∀ l1 l2 : List (String × String),
    jsonSafe l1 → jsonSafe l2 → bodyChars l1 = bodyChars l2 → l1 = l2
  | [], [], _, _, _ => rfl
  | [], p :: rest, _, _, h => by
    cases rest <;>
      simp [bodyChars, entryChars] at h
  | p :: rest, [], _, _, h => by
    cases rest <;>
      simp [bodyChars, entryChars] at h
  | p1 :: rest1, p2 :: rest2, hs1, hs2, h => by
    obtain ⟨hk1, hv1, hc1⟩ := hs1 p1 (List.mem_cons_self p1 rest1)
    obtain ⟨hk2, hv2, hc2⟩ := hs2 p2 (List.mem_cons_self p2 rest2)
    simp only [bodyChars, entryChars, List.cons_append, List.append_assoc,
      List.cons.injEq, true_and] at h
    obtain ⟨hkeys, hrest⟩ := splitAtChar '"' _ _ _ _ hk1 hk2 h
    have hkey : p1.1 = p2.1 := string_data_inj hkeys
    simp only [List.cons.injEq, true_and] at hrest
    have hvals := hrest
    cases rest1 with
    | nil =>
      cases rest2 with
      | nil =>
        dsimp only at hvals
        simp only [List.append_nil] at hvals
        have : p1 = p2 := by
          cases p1
          cases p2
          simp only [Prod.mk.injEq]
          exact ⟨hkey, string_data_inj hvals⟩
        rw [this]
      | cons q2 qs2 =>
        dsimp only at hvals
        simp only [List.append_nil] at hvals
        exfalso
        apply hc1
        rw [hvals]
        exact List.mem_append_right _ (List.mem_cons_self ',' _)
    | cons q1 qs1 =>
      cases rest2 with
      | nil =>
        dsimp only at hvals
        simp only [List.append_nil] at hvals
        exfalso
        apply hc2
        rw [← hvals]
        exact List.mem_append_right _ (List.mem_cons_self ',' _)
      | cons q2 qs2 =>
        dsimp only at hvals
        obtain ⟨hvv, hbb⟩ := splitAtChar ',' _ _ _ _ hc1 hc2 hvals
        have hval : p1.2 = p2.2 := string_data_inj hvv
        have hr := bodyChars_inj (q1 :: qs1) (q2 :: qs2)
          (fun q hq => hs1 q (List.mem_cons_of_mem _ hq))
          (fun q hq => hs2 q (List.mem_cons_of_mem _ hq)) hbb
        have : p1 = p2 := by
          cases p1
          cases p2
          simp only [Prod.mk.injEq]
          exact ⟨hkey, hval⟩
        rw [this, hr]

/-! ## Claim C9 -/

/-- C9, amended.  Determinism/canonicalization holds unconditionally: the
hash is insensitive to payload key order (for genuine dicts, i.e.
duplicate-free keys).  Injectivity in the four inputs holds *provided the
three id components contain no `'|'`* (and the payload needs no JSON
escaping): the pre-image then determines `service_id`, `agent_id`,
`task_id` and the payload up to key order.  Without that proviso the claim
fails: ids containing the separator collide (see the counterexample). -/
theorem serviceCallHash_canonical :
    (∀ (s a t : String) (l1 l2 : List (String × String)),
      l1.Perm l2 → (l1.map Prod.fst).Nodup →
      build_service_call_hash s a t l1 = build_service_call_hash s a t l2)
    ∧ (∀ (s1 a1 t1 : String) (l1 : List (String × String))
        (s2 a2 t2 : String) (l2 : List (String × String)),
      '|' ∉ s1.data → '|' ∉ a1.data → '|' ∉ t1.data →
      '|' ∉ s2.data → '|' ∉ a2.data → '|' ∉ t2.data →
      jsonSafe l1 → jsonSafe l2 →
      (l1.map Prod.fst).Nodup → (l2.map Prod.fst).Nodup →
      build_service_call_hash s1 a1 t1 l1 =
        build_service_call_hash s2 a2 t2 l2 →
      s1 = s2 ∧ a1 = a2 ∧ t1 = t2 ∧ l1.Perm l2) := by
  constructor
  · intro s a t l1 l2 hp hnd
    unfold build_service_call_hash hashInputChars canonPayloadChars
    rw [sortPairs_perm_eq l1 l2 hp hnd]
  · intro s1 a1 t1 l1 s2 a2 t2 l2 hps1 hpa1 hpt1 hps2 hpa2 hpt2 hjs1 hjs2
      hnd1 hnd2 h
    have hd : hashInputChars s1 a1 t1 l1 = hashInputChars s2 a2 t2 l2 :=
      congrArg String.data h
    unfold hashInputChars at hd
    obtain ⟨hseq, hd1⟩ := splitAtChar '|' _ _ _ _ hps1 hps2 hd
    obtain ⟨haeq, hd2⟩ := splitAtChar '|' _ _ _ _ hpa1 hpa2 hd1
    obtain ⟨hteq, hd3⟩ := splitAtChar '|' _ _ _ _ hpt1 hpt2 hd2
    unfold canonPayloadChars at hd3
    simp only [List.cons.injEq, true_and] at hd3
    have hbody := List.append_cancel_right hd3
    have hsorted : sortPairs l1 = sortPairs l2 :=
      bodyChars_inj (sortPairs l1) (sortPairs l2)
        (fun p hp => hjs1 p ((List.mem_insertionSort pairKeyLe).mp hp))
        (fun p hp => hjs2 p ((List.mem_insertionSort pairKeyLe).mp hp))
        hbody
    refine ⟨string_data_inj hseq, string_data_inj haeq,
      string_data_inj hteq, ?_⟩
    have h2 : List.Perm (sortPairs l1) l2 := by
      rw [hsorted]
      exact List.perm_insertionSort pairKeyLe l2
    exact (List.perm_insertionSort pairKeyLe l1).symm.trans h2

/-- Counterexample to C9 as stated: the `'|'`-joined pre-image is ambiguous
when an id contains the separator, so two different
`(service_id, agent_id)` pairs produce the *same* hash — changing an input
does not always change the hash. -/
theorem serviceCallHash_pipe_collision :
    build_service_call_hash "a|b" "c" "t" [] =
      build_service_call_hash "a" "b|c" "t" []
    ∧ ("a|b" : String) ≠ "a" ∧ ("c" : String) ≠ "b|c" := by
  refine ⟨?_, by decide, by decide⟩
  rfl

/-- Witness for the amended C9: the spec's key-order example — the payloads
`[a ↦ 1, b ↦ 2]` and `[b ↦ 2, a ↦ 1]` hash identically. -/
theorem serviceCallHash_canonical_witness :
    build_service_call_hash "svc" "agent" "task" [("a", "1"), ("b", "2")] =
      build_service_call_hash "svc" "agent" "task" [("b", "2"), ("a", "1")] :=
  serviceCallHash_canonical.1 "svc" "agent" "task"
    [("a", "1"), ("b", "2")] [("b", "2"), ("a", "1")]
    (List.Perm.swap ("b", "2") ("a", "1") []) (by decide)

/-! ## Orchestrator graph and Guardian gate
(src/backend/agents/nodes/guardian.py, src/backend/agents/graph.py)

`guardian_node`'s LLM interaction is modelled by
`Option (Except String GuardianDecision)`: `none` for no LLM configured,
`.error` for a failed chain invocation (`except Exception`), `.ok` for a
parsed decision.  Only the guardian-relevant fields of `GraphState` are
modelled. -/

structure GuardianDecision where
  risk_score : ℤ
  status : String
  reasoning : String
deriving DecidableEq

structure GuardState where
  guardian_block : Bool
  guardian_risk_score : ℤ
  guardian_reasoning : Option String
  final_answer : Option String
deriving DecidableEq

/-- `guardian_node`: approves by default — with no LLM the block flag is
left untouched (initially `False`), and an audit *error* explicitly sets
`guardian_block = False` (fail-open); only a parsed decision with verdict
`BLOCK` or risk score ≥ 8 sets the block flag. -/
def guardian_node (st : GuardState)
    (llm_outcome : Option (Except String GuardianDecision)) : GuardState :=
  match llm_outcome with
  | none => { st with guardian_reasoning := some "Audit skipped (No LLM)." }
  | some (.ok d) =>
    let st1 := { st with guardian_risk_score := d.risk_score,
                         guardian_reasoning := some d.reasoning }
    if d.status = "BLOCK" ∨ 8 ≤ d.risk_score then
      { st1 with guardian_block := true,
                 final_answer := some ("Security Block: " ++ d.reasoning) }
    else
      { st1 with guardian_block := false }
  | some (.error e) =>
    { st with guardian_reasoning := some ("Audit Error: " ++ e),
              guardian_block := false }

/-- The conditional edge out of the guardian node (`after_guardian`). -/
def after_guardian (st : GuardState) : String :=
  if st.guardian_block then "feedback" else "escrow_lock"

/-- The nodes of the compiled LangGraph workflow. -/
inductive GNode where
  | planner | guardian | escrow_lock | executor | verifier
  | escrow_release | feedback | summarizer | done
deriving DecidableEq

/-- The edge relation of `build_omni_agent_graph` (conditional edges
contribute both their targets). -/
def graph_edge : GNode → GNode → Bool
  | .planner, .guardian => true
  | .guardian, .escrow_lock => true
  | .guardian, .feedback => true
  | .escrow_lock, .executor => true
  | .executor, .verifier => true
  | .executor, .feedback => true
  | .verifier, .escrow_release => true
  | .escrow_release, .feedback => true
  | .feedback, .summarizer => true
  | .summarizer, .done => true
  | _, _ => false

/-! ## Claim C10 -/

/-- C10, amended: from a state with the block flag clear, the GUARD stage
routes to FEEDBACK *exactly when* the Guardian evaluation succeeded and
signalled a block (verdict `BLOCK` or risk score ≥ 8); a Guardian
evaluation *error* — and likewise a missing LLM — is treated as approval
(fail-open) and the task proceeds to ESCROW_LOCK, contrary to the claim's
"errors go directly to FEEDBACK".  When the task does take the FEEDBACK
edge, only SUMMARIZER and END are reachable from there, so escrow-lock and
execute are never entered. -/
theorem guardian_fail_open :
    (∀ (st : GuardState) (outcome : Option (Except String GuardianDecision)),
      st.guardian_block = false →
      (after_guardian (guardian_node st outcome) = "feedback" ↔
        ∃ d, outcome = some (Except.ok d) ∧
          (d.status = "BLOCK" ∨ 8 ≤ d.risk_score)))
    ∧ (∀ n : GNode,
      Relation.ReflTransGen (fun x y => graph_edge x y = true)
        GNode.feedback n →
      n = GNode.feedback ∨ n = GNode.summarizer ∨ n = GNode.done) := by
  constructor
  · intro st outcome hblock
    cases outcome with
    | none =>
      unfold guardian_node after_guardian
      simp [hblock]
    | some r =>
      cases r with
      | ok d =>
        unfold guardian_node after_guardian
        dsimp only
        by_cases hB : d.status = "BLOCK" ∨ 8 ≤ d.risk_score
        · rw [if_pos hB]
          simp only [if_pos rfl]
          constructor
          · intro _
            exact ⟨d, rfl, hB⟩
          · intro _
            rfl
        · rw [if_neg hB]
          simp only [if_neg (by decide : ¬(false = true))]
          constructor
          · intro hc
            exact absurd hc (by decide)
          · rintro ⟨d', hd', hcond⟩
            obtain rfl : d = d' := by
              injection hd' with h1
              injection h1
            exact absurd hcond hB
      | error e =>
        unfold guardian_node after_guardian
        simp
  · intro n h
    induction h with
    | refl => exact Or.inl rfl
    | tail hab hedge ih =>
      rcases ih with h1 | h1 | h1 <;>
        subst h1 <;>
        rename_i c <;>
        cases c <;>
        simp_all [graph_edge]

/-- Counterexample to C10 as stated: a Guardian evaluation error leaves
`guardian_block = False` (the `except` branch of `guardian_node`), so the
task proceeds to ESCROW_LOCK, not to FEEDBACK. -/
theorem guardian_error_not_feedback :
    after_guardian (guardian_node
      { guardian_block := false, guardian_risk_score := 0,
        guardian_reasoning := none, final_answer := none }
      (some (Except.error "LLM invocation failed"))) = "escrow_lock"
    ∧ ("escrow_lock" : String) ≠ "feedback" := ⟨rfl, by decide⟩

/-- Witness for the amended C10: an explicit BLOCK verdict with risk 9
routes the task to FEEDBACK. -/
theorem guardian_fail_open_witness :
    after_guardian (guardian_node
      { guardian_block := false, guardian_risk_score := 0,
        guardian_reasoning := none, final_answer := none }
      (some (Except.ok
        { risk_score := 9, status := "BLOCK",
          reasoning := "plan spends far beyond budget" }))) = "feedback" :=
  (guardian_fail_open.1
    { guardian_block := false, guardian_risk_score := 0,
      guardian_reasoning := none, final_answer := none }
    (some (Except.ok
      { risk_score := 9, status := "BLOCK",
        reasoning := "plan spends far beyond budget" })) rfl).mpr
    ⟨{ risk_score := 9, status := "BLOCK",
       reasoning := "plan spends far beyond budget" }, rfl, Or.inl rfl⟩

end OmniAgent
